import Mathlib

set_option allowUnsafeReducibility true
attribute [semireducible] Rat.add Rat.mul Rat.sub Rat.div Rat.neg Rat.inv Rat.blt

/-!
A shallow embedding of Ardour's LTC (linear timecode) generator,
`Session::send_ltc_for_cycle` and its helpers from
`src/libs/ardour/session_ltc.cc`, together with theorems settling the
specification claims about it.

Modelling conventions:
* C `double` arithmetic is modelled exactly over `ℚ`; sample positions
  (`samplepos_t`, `sampleoffset_t`, `samplecnt_t`) over `ℤ`.
* `ceil`/`floor`/`rint`/`fmod` on doubles become `qceil`/`qfloor`/`crint`/
  `cfmod`; C integer `%` on sample positions becomes `Int.tmod`.
* The externally supplied primitives (the libltc encoder, the
  `temporal` timecode conversions, the transport master) are not part of
  this translation unit; they are supplied as oracle functions in `Env`.
* The scratch sample buffer `ltc_enc_buf` is modelled as a total map
  `ℕ → ℕ` of byte cells, with the C index variables `ltc_buf_off` and
  `ltc_buf_len` kept explicit, exactly as in the source.
-/

/-- Floor of a rational, computably: `q.num / q.den` with Euclidean
integer division (the denominator is positive). -/
def qfloor (q : ℚ) : ℤ := q.num / (q.den : ℤ)

theorem qfloor_eq (q : ℚ) : qfloor q = ⌊q⌋ := (Rat.floor_def).symm

/-- Ceiling of a rational, computably. -/
def qceil (q : ℚ) : ℤ := -(qfloor (-q))

theorem qceil_eq (q : ℚ) : qceil q = ⌈q⌉ := by
  rw [qceil, qfloor_eq, Int.floor_neg, neg_neg]

/-- Truncation toward zero, as a C double-to-int cast performs. -/
def qtrunc (q : ℚ) : ℤ := if q < 0 then qceil q else qfloor q

theorem qtrunc_eq (q : ℚ) : qtrunc q = if q < 0 then ⌈q⌉ else ⌊q⌋ := by
  rw [qtrunc, qceil_eq, qfloor_eq]

/-- C `fmod` on doubles: remainder with the sign of the dividend. -/
def cfmod (x y : ℚ) : ℚ := x - (qtrunc (x / y) : ℚ) * y

/-- C `rint` with the default rounding mode: round half to even. -/
def crint (q : ℚ) : ℤ :=
  let f := qfloor q
  let r := q - (f : ℚ)
  if r < 1/2 then f
  else if 1/2 < r then f + 1
  else if f % 2 = 0 then f else f + 1

/-- The `SIGNUM` macro from `session_ltc.cc` line 253:
`(a) < 0 ? -1 : 1` (zero counts as positive). -/
def SIGNUM (a : ℚ) : ℤ := if a < 0 then -1 else 1

/-- An SMPTE timecode value together with the drop-frame bit, as held by
the libltc encoder (`SMPTETimecode` plus `LTCFrame.dfbit`). -/
structure SMPTE where
  hours : ℕ
  mins : ℕ
  secs : ℕ
  frame : ℕ
  dfbit : Bool
deriving DecidableEq

/-- Per-block inputs of `send_ltc_for_cycle`: the transport positions,
the session/engine configuration read once per block, and oracles for the
externally supplied primitives (libltc encoder, timecode conversions,
transport master). -/
structure Env where
  start_sample : ℤ
  end_sample : ℤ
  n_samples : ℕ
  latency_max : ℤ
  nominal_sr : ℤ
  engine_sr : ℤ
  fps : ℚ
  dropFrames : Bool
  isFrac24 : Bool
  formatId : ℕ
  reinitFails : Bool
  haveMaster : Bool
  freewheeling : Bool
  sendEnabled : Bool
  syncMidiClock : Bool
  sendContinuously : Bool
  ltcVolume : ℚ
  masterIsExternal : Bool
  masterResolution : ℚ
  frameAlignment : ℤ
  tcOfSample : ℤ → SMPTE
  sampleOfTc : SMPTE → ℤ
  incTc : SMPTE → SMPTE
  decTc : SMPTE → SMPTE
  encodeByte : ℕ → ℕ → ℚ → Option (List ℕ)

/-- The generator's cross-block mutable state: the `ltc_*` session fields
of `session_ltc.cc`. `alive` stands for `ltc_encoder != NULL` (cleared by
`ltc_tx_cleanup`); `enc_tc` is the timecode held inside the libltc
encoder. -/
structure St where
  alive : Bool
  ltc_enc_tcformat : ℕ
  ltc_speed : ℚ
  ltc_prev_cycle : ℤ
  ltc_enc_pos : ℤ
  ltc_enc_byte : ℕ
  ltc_enc_cnt : ℚ
  restarting : Bool
  ltc_enc_buf : ℕ → ℕ
  ltc_buf_off : ℕ
  ltc_buf_len : ℕ
  enc_tc : SMPTE

/-- Events observed during one invocation of the render entry point; one
flag per `ltc_tx_reset()` call site, plus the branch outcomes the claims
talk about. -/
structure Trace where
  notifyFormatError : Bool := false
  resetFormat : Bool := false
  resetDir : Bool := false
  resetSeek : Bool := false
  resetOOB : Bool := false
  resetStart : Bool := false
  resetResample : Bool := false
  hardResync : Bool := false
  resetRace : Bool := false
  deferred : Bool := false
  softCorr : Bool := false
  encAbort : Bool := false
  abortTxf : ℕ := 0
  carried : ℕ := 0
  fuelOut : Bool := false
deriving DecidableEq

/-- Result of one invocation: final state, the block's output buffer
(length `n_samples`), and the event trace. -/
structure Result where
  st : St
  out : List ℚ
  tr : Trace

/-- `Session::ltc_tx_reset` (lines 117-129): sentinel position, empty
scratch buffer, byte index and frame progress zeroed.  The libltc-side
`ltc_encoder_reset` clears only the encoder's internal sample buffer, so
`enc_tc` and `restarting` are untouched. -/
def ltcTxReset (s : St) : St :=
  { s with ltc_enc_pos := -9999, ltc_buf_len := 0, ltc_buf_off := 0,
           ltc_enc_byte := 0, ltc_enc_cnt := 0 }

/-- `memset(&m[dst], v, n)` on the scratch buffer. -/
def memsetMem (m : ℕ → ℕ) (dst v n : ℕ) : ℕ → ℕ :=
  fun j => if dst ≤ j ∧ j < dst + n then v else m j

/-- Write the list `vals` into the scratch buffer starting at `dst`. -/
def writeListMem (m : ℕ → ℕ) (dst : ℕ) (vals : List ℕ) : ℕ → ℕ :=
  fun j => if dst ≤ j ∧ j < dst + vals.length then vals.getD (j - dst) 0 else m j

/-- `memmove(&m[rp+1], &m[rp], n)`: shift `n` cells up by one. -/
def memmoveUp (m : ℕ → ℕ) (rp n : ℕ) : ℕ → ℕ :=
  fun j => if rp + 1 ≤ j ∧ j < rp + 1 + n then m (j - 1) else m j

/-- `memmove(&m[rp], &m[rp+1], n)`: shift `n` cells down by one. -/
def memmoveDown (m : ℕ → ℕ) (rp n : ℕ) : ℕ → ℕ :=
  fun j => if rp ≤ j ∧ j < rp + n then m (j + 1) else m j

/-- Line 256: `new_ltc_speed = (end_sample - start_sample) / (double)n_samples`. -/
def rawSpeed (env : Env) : ℚ :=
  ((env.end_sample - env.start_sample : ℤ) : ℚ) / (env.n_samples : ℚ)

/-- Lines 274-295: latency-compensated, TV-standard-aligned, clamped
block start position (`cycle_start_sample`). `sp` is `new_ltc_speed` as it
stands there (post line 256, pre line 297). -/
def cycleStartSample (env : Env) (sp : ℚ) : ℤ :=
  let c1 : ℤ :=
    if sp < 0 then env.start_sample - env.latency_max
    else if sp > 0 then env.start_sample + env.latency_max
    else env.start_sample
  let c2 : ℤ := if sp ≠ 0 then c1 - env.frameAlignment else c1
  if c2 < 0 then 0 else c2

/-- Lines 297-299: rescale the speed when nominal and engine sample rates
differ. -/
def rescaleSpeed (env : Env) (sp : ℚ) : ℚ :=
  if env.nominal_sr ≠ env.engine_sr
  then sp * ((env.nominal_sr : ℚ) / (env.engine_sr : ℚ)) else sp

/-- `samples_per_timecode_frame()` (line 454): engine sample rate divided
by the timecode frame rate. -/
def fptcfOf (env : Env) : ℚ := (env.engine_sr : ℚ) / env.fps

/-- Lines 466-478: the hard-resync tolerance `maxdiff`. `sp` is
`ltc_speed` as it stands there (already updated to the new speed at
line 421). -/
def maxdiffOf (env : Env) (sp : ℚ) : ℚ :=
  if env.masterIsExternal then env.masterResolution
  else
    let m1 : ℚ := ((qceil |sp| : ℤ) : ℚ) * 2
    let m2 : ℚ := if env.nominal_sr ≠ env.engine_sr then m1 * 3 else m1
    if env.isFrac24 then m2 * 15 else m2

/-- Line 488: `wrap24h = 86400. * sample_rate()`. -/
def wrap24hOf (env : Env) : ℤ := 86400 * env.engine_sr

/-- Lines 388-397: the sample-insertion loop of the speed-change
resampling, with an explicit fuel bound for the `for` loop. Arguments
after `avg`: fuel, `rp`, `ltc_buf_len`, `incnt`, buffer. Returns the new
buffer and `ltc_buf_len`. -/
def insertLoop (off : ℕ) (avg : ℚ) : ℕ → ℕ → ℕ → ℕ → (ℕ → ℕ) → ((ℕ → ℕ) × ℕ)
  | 0, _, len, _, m => (m, len)
  | fuel+1, rp, len, incnt, m =>
    if rp + 1 < len then
      if ((rp - off : ℕ) : ℚ) < (incnt : ℚ) * avg then
        insertLoop off avg fuel (rp+1) len incnt m
      else if m rp ≠ m (rp+1) ∧ ((rp - off : ℕ) : ℚ) < ((incnt : ℚ) + 1) * avg then
        insertLoop off avg fuel (rp+1) len incnt m
      else
        insertLoop off avg fuel (rp+1) (len+1) (incnt+1) (memmoveUp m rp (len - rp))
    else (m, len)

/-- Lines 406-415: the sample-removal loop of the speed-change
resampling, with an explicit fuel bound. Same argument order as
`insertLoop` with `rmcnt` in place of `incnt`. -/
def removeLoop (off : ℕ) (avg : ℚ) : ℕ → ℕ → ℕ → ℕ → (ℕ → ℕ) → ((ℕ → ℕ) × ℕ)
  | 0, _, len, _, m => (m, len)
  | fuel+1, rp, len, rmcnt, m =>
    if rp + 1 < len then
      if ((rp - off : ℕ) : ℚ) < (rmcnt : ℚ) * avg then
        removeLoop off avg fuel (rp+1) len rmcnt m
      else if m rp ≠ m (rp+1) ∧ ((rp - off : ℕ) : ℚ) < ((rmcnt : ℚ) + 1) * avg then
        removeLoop off avg fuel (rp+1) len rmcnt m
      else
        removeLoop off avg fuel (rp+1) (len-1) (rmcnt+1) (memmoveDown m rp (len - rp - 1))
    else (m, len)

/-- Lines 356-418: re-sample the buffered-but-unsent samples after a
numeric speed change (`speed_changed && new_ltc_speed != 0` established by
the caller). `sp2` is the new speed, `poff` the value computed at
line 354. Returns the new state, the (possibly zeroed) `poff`, and
whether the resampling was abandoned with a reset. -/
def resampleStage (st : St) (sp2 poff : ℚ) : St × ℚ × Bool :=
  let oldbuflen : ℚ := ((st.ltc_buf_len - st.ltc_buf_off : ℕ) : ℚ)
  let newbuflen : ℚ := oldbuflen * |st.ltc_speed / sp2|
  let bufrspdiff : ℚ := ((crint (newbuflen - oldbuflen) : ℤ) : ℚ)
  if newbuflen < |bufrspdiff| ∨ oldbuflen < |bufrspdiff| then
    (ltcTxReset st, 0, true)
  else if bufrspdiff ≠ 0 ∧ oldbuflen < newbuflen then
    let samples_to_insert : ℚ := ((qceil (newbuflen - oldbuflen) : ℤ) : ℚ)
    let avg := newbuflen / samples_to_insert
    let r := insertLoop st.ltc_buf_off avg (2 * st.ltc_buf_len + 16)
               st.ltc_buf_off st.ltc_buf_len 0 st.ltc_enc_buf
    ({ st with ltc_enc_buf := r.1, ltc_buf_len := r.2 }, poff, false)
  else if bufrspdiff ≠ 0 ∧ newbuflen < oldbuflen then
    let samples_to_remove : ℚ := ((qceil (oldbuflen - newbuflen) : ℤ) : ℚ)
    if oldbuflen ≤ samples_to_remove then
      ({ st with ltc_buf_off := 0, ltc_buf_len := 0 }, poff, false)
    else
      let avg := newbuflen / samples_to_remove
      let r := removeLoop st.ltc_buf_off avg (st.ltc_buf_len + 16)
                 st.ltc_buf_off st.ltc_buf_len 0 st.ltc_enc_buf
      ({ st with ltc_enc_buf := r.1, ltc_buf_len := r.2 }, poff, false)
  else (st, poff, false)

/-- Overwrite `out` starting at `pos` with `vals` (caller guarantees the
write fits; used for the output buffer). -/
def writeAt (out : List ℚ) (pos : ℕ) (vals : List ℚ) : List ℚ :=
  out.take pos ++ vals ++ out.drop (pos + vals.length)

/-- The values the drain loop (lines 593-597) produces from `k` scratch
cells starting at `off`: `(ltc_enc_buf[i] - 128.0) * ltcvol`. -/
def drainVals (m : ℕ → ℕ) (vol : ℚ) (off k : ℕ) : List ℚ :=
  (List.range k).map fun i => ((m (off + i) : ℚ) - 128) * vol

/-- `Session::ltc_tx_recalculate_position` (lines 142-162): re-derive
`ltc_enc_pos` from the encoder's timecode (via the external
`timecode_to_sample`), clearing `restarting`. -/
def recalcPosition (env : Env) (st : St) : St :=
  { st with ltc_enc_pos := env.sampleOfTc st.enc_tc, restarting := false }

/-- Outcome of the re-align branch (lines 493-563). -/
structure ResyncOut where
  st : St
  out : List ℚ
  txf : ℕ
  deferred : Bool
  race : Bool

/-- Lines 524 and 532: the raw BCD byte index covering `soff` -
`floor((10*soff)/fptcf)` at reverse speed, `ceil((10*soff)/fptcf)`
otherwise - before the 10-to-0 wrap of line 538. -/
def resyncByteRaw (sp : ℚ) (soff : ℤ) (fptcf : ℚ) : ℤ :=
  if sp < 0 then qfloor ((10 * (soff : ℚ)) / fptcf)
  else qceil ((10 * (soff : ℚ)) / fptcf)

/-- Whether the forward branch wraps byte index 10 back to 0 and
increments the encoder timecode (lines 538-541). -/
def resyncWraps (sp : ℚ) (soff : ℤ) (fptcf : ℚ) : Prop :=
  0 ≤ sp ∧ resyncByteRaw sp soff fptcf = 10

instance (sp : ℚ) (soff : ℤ) (fptcf : ℚ) : Decidable (resyncWraps sp soff fptcf) :=
  inferInstanceAs (Decidable (And _ _))

/-- The `ltc_enc_byte` seeded by the re-align branch. -/
def resyncByte (sp : ℚ) (soff : ℤ) (fptcf : ℚ) : ℕ :=
  if resyncWraps sp soff fptcf then 0 else (resyncByteRaw sp soff fptcf).toNat

/-- Lines 525 and 533: `ltc_enc_cnt = ltc_enc_byte * fptcf / 10.0`,
computed from the pre-wrap byte index. -/
def resyncCnt (sp : ℚ) (soff : ℤ) (fptcf : ℚ) : ℚ :=
  (resyncByteRaw sp soff fptcf : ℚ) * fptcf / 10

/-- Lines 528 and 536: the within-block sample offset `cyc_off` at which
output starts. -/
def resyncCycOff (sp : ℚ) (soff : ℤ) (fptcf : ℚ) : ℤ :=
  if sp < 0 then soff - qceil (resyncCnt sp soff fptcf)
  else qceil (resyncCnt sp soff fptcf) - soff

/-- Lines 493-563: the hard-resync (re-align) branch.  `st` already
carries the updated speed (line 421); `tc_start`, `tc_sample_start` and
`soff` are the alignment data of step (3). -/
def resyncStage (env : Env) (st : St) (tc_start : SMPTE)
    (tc_sample_start soff : ℤ) (fptcf : ℚ) (out : List ℚ) : ResyncOut :=
  let st := ltcTxReset st
  let seeded : SMPTE :=
    { hours := tc_start.hours % 24, mins := tc_start.mins,
      secs := tc_start.secs, frame := tc_start.frame,
      dfbit := env.dropFrames }
  let st := { st with enc_tc := seeded }
  if soff < 0 ∨ fptcf ≤ (soff : ℚ) then
    { st := ltcTxReset st, out := out, txf := 0, deferred := true, race := true }
  else
    let b : ℕ := resyncByte st.ltc_speed soff fptcf
    let cyc_off : ℤ := resyncCycOff st.ltc_speed soff fptcf
    let st : St :=
      { st with
        ltc_enc_byte := b,
        ltc_enc_cnt := resyncCnt st.ltc_speed soff fptcf,
        enc_tc := if resyncWraps st.ltc_speed soff fptcf then env.incTc seeded else seeded,
        restarting :=
          if (st.ltc_speed < 0 ∧ b ≠ 9) ∨ (0 ≤ st.ltc_speed ∧ b ≠ 0)
          then true else st.restarting }
    if 0 ≤ cyc_off ∧ cyc_off ≤ (env.n_samples : ℤ) then
      let txf : ℕ := (crint ((cyc_off : ℚ) / |st.ltc_speed|)).toNat
      let out := writeAt out 0 (List.replicate cyc_off.toNat 0)
      let st := { st with ltc_enc_pos := Int.tmod tc_sample_start (wrap24hOf env) }
      { st := st, out := out, txf := txf, deferred := false, race := false }
    else
      { st := st, out := out, txf := 0, deferred := true, race := false }

/-- Outcome of the encode-and-output loop (6). -/
structure LoopOut where
  st : St
  out : List ℚ
  encAbort : Bool
  abortTxf : ℕ
  fuelOut : Bool

/-- Step (6a) (lines 593-597): drain buffered-but-unsent scratch samples
into the output buffer, applying the volume scaling.  Returns the updated
state, output and `txf`. -/
def drain6a (env : Env) (ltcvol : ℚ) (st : St) (out : List ℚ) (txf : ℕ) :
    St × List ℚ × ℕ :=
  let k : ℕ := min (st.ltc_buf_len - st.ltc_buf_off) (env.n_samples - txf)
  ({ st with ltc_buf_off := st.ltc_buf_off + k },
   writeAt out txf (drainVals st.ltc_enc_buf ltcvol st.ltc_buf_off k),
   txf + k)

/-- Lines 613-620: the reverse-direction byte index decrement with its
frame rollover (decrement timecode, recalculate position). -/
def byteDance (env : Env) (fptcf : ℚ) (st : St) : St :=
  if st.ltc_speed < 0 then
    let st : St := { st with ltc_enc_byte := (st.ltc_enc_byte + 9) % 10 }
    if st.ltc_enc_byte = 9 then
      { recalcPosition env { st with enc_tc := env.decTc st.enc_tc }
        with ltc_enc_cnt := fptcf }
    else st
  else st

/-- Lines 622-648 (6b): produce the next run of scratch samples - one
frame-tenth of neutral `127` filler while `restarting` (lines 624-629),
otherwise the encoder primitive's output for the pending byte; `none`
models `ltc_encoder_encode_byte` reporting an error. -/
def refill6b (env : Env) (fptcf : ℚ) (callIdx : ℕ) (st : St) :
    Option ((ℕ → ℕ) × ℕ) :=
  if st.restarting then
    let fillerK : ℕ := (qtrunc (fptcf / 10)).toNat
    some (memsetMem st.ltc_enc_buf st.ltc_buf_len 127 fillerK, fillerK)
  else
    match env.encodeByte callIdx st.ltc_enc_byte
            (if st.ltc_speed = 0 then 1 else 1 / st.ltc_speed) with
    | none => none
    | some samples =>
      some (writeListMem st.ltc_enc_buf st.ltc_buf_len samples, samples.length)

/-- Lines 650-672: commit the refilled samples, advance `ltc_enc_cnt` and
the byte index, stepping the timecode at full-frame rollovers and
clearing `restarting` at a forward byte-0 boundary. -/
def advance6b (env : Env) (fptcf : ℚ) (st : St) (mk : (ℕ → ℕ) × ℕ) : St :=
  let st : St := { st with ltc_enc_buf := mk.1, ltc_buf_len := st.ltc_buf_len + mk.2 }
  let st : St :=
    if st.ltc_speed < 0 then { st with ltc_enc_cnt := st.ltc_enc_cnt - fptcf / 10 }
    else { st with ltc_enc_cnt := st.ltc_enc_cnt + fptcf / 10 }
  if 0 ≤ st.ltc_speed then
    let st : St := { st with ltc_enc_byte := (st.ltc_enc_byte + 1) % 10 }
    if st.ltc_enc_byte = 0 ∧ st.ltc_speed ≠ 0 then
      { recalcPosition env { st with enc_tc := env.incTc st.enc_tc }
        with ltc_enc_cnt := 0 }
    else if st.ltc_enc_byte = 0 then
      { st with ltc_enc_cnt := 0, restarting := false }
    else st
  else st

/-- One round of the encode-and-output loop (lines 588-676): drain (6a),
check for completion, then encode one more byte (6b).  `Sum.inl` when the
block completes or aborts (`ltc_encoder_encode_byte` error or empty
output, lines 630-648, with `ltc_tx_reset`), `Sum.inr` with the inputs of
the next round otherwise. -/
def loop6Step (env : Env) (fptcf ltcvol : ℚ) (st : St) (out : List ℚ)
    (txf : ℕ) (callIdx : ℕ) : LoopOut ⊕ (St × List ℚ × ℕ) :=
  let d := drain6a env ltcvol st out txf
  if env.n_samples ≤ d.2.2 then
    Sum.inl { st := d.1, out := d.2.1, encAbort := false, abortTxf := 0,
              fuelOut := false }
  else
    let st : St := byteDance env fptcf { d.1 with ltc_buf_len := 0, ltc_buf_off := 0 }
    match refill6b env fptcf callIdx st with
    | none =>
      Sum.inl { st := ltcTxReset st, out := d.2.1, encAbort := true,
                abortTxf := d.2.2, fuelOut := false }
    | some mk =>
      if mk.2 = 0 then
        Sum.inl { st := ltcTxReset { st with ltc_enc_buf := mk.1 }, out := d.2.1,
                  encAbort := true, abortTxf := d.2.2, fuelOut := false }
      else
        Sum.inr (advance6b env fptcf st mk, d.2.1, d.2.2)

/-- The encode-and-output loop (6), iterating `loop6Step` on explicit
fuel; `n_samples + 2` rounds always suffice when the encoder produces at
least one sample per byte. -/
def loop6 (env : Env) (fptcf ltcvol : ℚ) :
    ℕ → St → List ℚ → ℕ → ℕ → LoopOut
  | 0, st, out, _, _ =>
    { st := st, out := out, encAbort := false, abortTxf := 0, fuelOut := true }
  | fuel+1, st, out, txf, callIdx =>
    match loop6Step env fptcf ltcvol st out txf callIdx with
    | Sum.inl r => r
    | Sum.inr c => loop6 env fptcf ltcvol fuel c.1 c.2.1 c.2.2 (callIdx + 1)

/-- Enter the encode-and-output loop, recording how many
buffered-but-unsent samples are carried into this block. -/
def runLoop (env : Env) (fuel : ℕ) (fptcf ltcvol : ℚ) (st : St) (out : List ℚ)
    (txf : ℕ) (tr : Trace) : Result :=
  let carried := st.ltc_buf_len - st.ltc_buf_off
  let r := loop6 env fptcf ltcvol fuel st out txf 0
  { st := r.st, out := r.out,
    tr := { tr with encAbort := r.encAbort, abortTxf := r.abortTxf,
                    fuelOut := r.fuelOut, carried := carried } }

/-- Steps (3)-(5) of `send_ltc_for_cycle` (lines 424-584): bit/sample
alignment via the external timecode conversions, the hard-resync
decision (lines 488-491), the re-align branch or the soft speed
correction, then the encode-and-output loop.  `st` already carries the
updated `ltc_prev_cycle` and `ltc_speed` (lines 420-421); `poff` is the
value from line 354 (possibly zeroed by an abandoned resampling). -/
def alignStage (env : Env) (fuel : ℕ) (ltcvol : ℚ) (st : St) (poff : ℚ)
    (css : ℤ) (tr : Trace) : Result :=
  let out0 : List ℚ := List.replicate env.n_samples 0
  let tc_start := env.tcOfSample css
  let tc_sample_start := env.sampleOfTc tc_start
  let soff : ℤ := if st.ltc_speed = 0 then 0 else css - tc_sample_start
  let fptcf := fptcfOf env
  let maxdiff := maxdiffOf env st.ltc_speed
  let w := wrap24hOf env
  let expected : ℚ := (st.ltc_enc_pos : ℚ) + st.ltc_enc_cnt - poff
  if st.ltc_enc_pos < 0 ∨
     (st.ltc_speed ≠ 0 ∧
       maxdiff < |cfmod ((qceil expected : ℤ) : ℚ) ((w : ℤ) : ℚ) -
                  ((Int.tmod css w : ℤ) : ℚ)|) then
    let r := resyncStage env st tc_start tc_sample_start soff fptcf out0
    if r.race then
      { st := r.st, out := r.out, tr := { tr with hardResync := true, resetRace := true } }
    else if r.deferred then
      { st := r.st, out := r.out, tr := { tr with hardResync := true, deferred := true } }
    else
      runLoop env fuel fptcf ltcvol r.st r.out r.txf { tr with hardResync := true }
  else
    if st.ltc_speed ≠ 0 ∧ 3 < fptcf / st.ltc_speed / 80 then
      let st := { st with ltc_speed :=
        st.ltc_speed - cfmod (expected - (css : ℚ)) ((w : ℤ) : ℚ) / ((env.engine_sr : ℤ) : ℚ) }
      runLoop env fuel fptcf ltcvol st out0 0 { tr with softCorr := true }
    else
      runLoop env fuel fptcf ltcvol st out0 0 tr

/-- Lines 339-421 of `send_ltc_for_cycle`: out-of-bounds speed check,
the stopped-to-rolling reset, `poff`, the speed-change resampling, and
the `ltc_prev_cycle`/`ltc_speed` update.  `sp1` is the rescaled speed of
line 297 (used for the `speed_changed` comparison of line 306), `sp2` the
possibly zero-clamped `new_ltc_speed` in force from line 339 on. -/
def stage2 (env : Env) (fuel : ℕ) (ltcvol : ℚ) (st : St) (sp1 sp2 : ℚ)
    (css : ℤ) (tr : Trace) : Result :=
  let out0 : List ℚ := List.replicate env.n_samples 0
  if 10 < |sp2| then
    { st := ltcTxReset st, out := out0, tr := { tr with resetOOB := true } }
  else
    let r1 : St × Trace :=
      if st.ltc_speed = 0 ∧ sp2 ≠ 0 then (ltcTxReset st, { tr with resetStart := true })
      else (st, tr)
    let st := r1.1
    let tr := r1.2
    let poff0 : ℚ := ((st.ltc_buf_len - st.ltc_buf_off : ℕ) : ℚ) * st.ltc_speed
    let r2 : St × ℚ × Bool :=
      if st.ltc_speed ≠ sp1 ∧ sp2 ≠ 0 then resampleStage st sp2 poff0
      else (st, poff0, false)
    let st := r2.1
    let tr := if r2.2.2 then { tr with resetResample := true } else tr
    let st := { st with ltc_prev_cycle := env.start_sample, ltc_speed := sp2 }
    alignStage env fuel ltcvol st r2.2.1 css tr

/-- Lines 248-337 of `send_ltc_for_cycle`: speed and direction handling -
raw speed, `cycle_start_sample`, rescaling, the direction-change reset,
and the transport-stopped branch (clamp to zero, optional early return,
seek-while-stopped reset). -/
def speedStage (env : Env) (fuel : ℕ) (ltcvol : ℚ) (st : St) (tr : Trace) : Result :=
  let out0 : List ℚ := List.replicate env.n_samples 0
  let sp0 := rawSpeed env
  let css := cycleStartSample env sp0
  let sp1 := rescaleSpeed env sp0
  let r1 : St × Trace :=
    if SIGNUM sp1 ≠ SIGNUM st.ltc_speed then (ltcTxReset st, { tr with resetDir := true })
    else (st, tr)
  let st := r1.1
  let tr := r1.2
  if env.end_sample = env.start_sample ∨ |sp1| < 1/10 then
    if ¬ env.sendContinuously then
      { st := { st with ltc_speed := 0 }, out := out0, tr := tr }
    else
      let r2 : St × Trace :=
        if env.start_sample ≠ st.ltc_prev_cycle then
          (ltcTxReset st, { tr with resetSeek := true })
        else (st, tr)
      stage2 env fuel ltcvol r2.1 sp1 0 css r2.2
  else
    stage2 env fuel ltcvol st sp1 sp1 css tr

/-- `Session::send_ltc_for_cycle` (lines 164-677).  The output buffer is
silenced up front (line 178); the early `return`s of lines 180-202 leave
it that way.  A frame-format change re-initialises the encoder; if the
new format's rate is unrepresentable, the encoder is torn down
(`ltc_tx_cleanup`, line 234) and one error is reported. `fuel` bounds the
encode-and-output loop; `n_samples + 2` rounds always suffice. -/
def sendLtcForCycle (env : Env) (st : St) (fuel : ℕ) : Result :=
  let out0 : List ℚ := List.replicate env.n_samples 0
  let tr0 : Trace := {}
  if ¬ st.alive then { st := st, out := out0, tr := tr0 }
  else if ¬ env.haveMaster then { st := st, out := out0, tr := tr0 }
  else if env.freewheeling ∨ ¬ env.sendEnabled ∨ env.syncMidiClock then
    { st := st, out := out0, tr := tr0 }
  else
    let ltcvol : ℚ := env.ltcVolume / 90
    if env.formatId ≠ st.ltc_enc_tcformat then
      if env.reinitFails then
        { st := { st with alive := false }, out := out0,
          tr := { tr0 with notifyFormatError := true } }
      else
        let st := ltcTxReset { st with ltc_enc_tcformat := env.formatId,
                                       ltc_prev_cycle := -1 }
        if 30 < env.fps then
          { st := st, out := out0, tr := { tr0 with resetFormat := true } }
        else speedStage env fuel ltcvol st { tr0 with resetFormat := true }
    else
      if 30 < env.fps then { st := st, out := out0, tr := tr0 }
      else speedStage env fuel ltcvol st tr0

/-- Whether any `ltc_tx_reset()` call site fired during the block
(`hardResync` covers the reset of line 494, `resetRace` the one of
line 518, `encAbort` those of lines 634 and 646). -/
def anyReset (tr : Trace) : Bool :=
  tr.resetFormat || tr.resetDir || tr.resetSeek || tr.resetOOB || tr.resetStart ||
  tr.resetResample || tr.hardResync || tr.resetRace || tr.encAbort

/-- Run consecutive blocks; returns the final state and how many
framerate-error notifications were issued. -/
def runBlocks (fuel : ℕ) : List Env → St → St × ℕ
  | [], st => (st, 0)
  | e :: es, st =>
    let r := sendLtcForCycle e st fuel
    let rest := runBlocks fuel es r.st
    (rest.1, (if r.tr.notifyFormatError then 1 else 0) + rest.2)

/-- The hard-resync trigger exactly as claim C1 words it: with `s` the
PREVIOUS block's speed throughout, the sentinel, or `s ≠ 0` together with
the magnitude of the 24-hour-wrapped difference between the expected
drift-free encoder position
(`encodedPosition + pendingByteSampleCount - bufferedButUnsent * s`) and
`alignedStart` exceeding the tolerance computed from `s`. -/
def spec_hardResyncCond (env : Env) (prevSpeed : ℚ) (pos : ℤ) (cnt : ℚ)
    (buffered : ℕ) (alignedStart : ℤ) : Prop :=
  pos < 0 ∨ (prevSpeed ≠ 0 ∧ maxdiffOf env prevSpeed <
    |cfmod ((pos : ℚ) + cnt - (buffered : ℚ) * prevSpeed - (alignedStart : ℚ))
       ((wrap24hOf env : ℤ) : ℚ)|)

/-- Block input for the C1 counterexample: the transport was rolling at
speed 1 and stops on this block exactly at the previous block's start
position (a locate back to `ltc_prev_cycle`), with continuous generation
enabled, while the encoder position is 400 samples off. -/
def c1Env : Env :=
  { start_sample := 100, end_sample := 100, n_samples := 8, latency_max := 0,
    nominal_sr := 400, engine_sr := 400, fps := 10, dropFrames := false,
    isFrac24 := false, formatId := 0, reinitFails := false, haveMaster := true,
    freewheeling := false, sendEnabled := true, syncMidiClock := false,
    sendContinuously := true, ltcVolume := 90, masterIsExternal := false,
    masterResolution := 0, frameAlignment := 0,
    tcOfSample := fun _ => ⟨0, 0, 0, 0, false⟩,
    sampleOfTc := fun _ => 0,
    incTc := fun t => t, decTc := fun t => t,
    encodeByte := fun _ _ _ => some (List.replicate 4 128) }

/-- Generator state for the C1 counterexample. -/
def c1St : St :=
  { alive := true, ltc_enc_tcformat := 0, ltc_speed := 1, ltc_prev_cycle := 100,
    ltc_enc_pos := 500, ltc_enc_byte := 0, ltc_enc_cnt := 0, restarting := false,
    ltc_enc_buf := fun _ => 0, ltc_buf_off := 0, ltc_buf_len := 0,
    enc_tc := ⟨0, 0, 0, 0, false⟩ }

/-- Shared witness inputs: a plain forward-rolling block at speed 1 with
the encoder already aligned. -/
def wEnvRoll : Env :=
  { start_sample := 0, end_sample := 8, n_samples := 8, latency_max := 0,
    nominal_sr := 400, engine_sr := 400, fps := 10, dropFrames := false,
    isFrac24 := false, formatId := 0, reinitFails := false, haveMaster := true,
    freewheeling := false, sendEnabled := true, syncMidiClock := false,
    sendContinuously := true, ltcVolume := 90, masterIsExternal := false,
    masterResolution := 0, frameAlignment := 0,
    tcOfSample := fun _ => ⟨0, 0, 0, 0, false⟩,
    sampleOfTc := fun _ => 0,
    incTc := fun t => t, decTc := fun t => t,
    encodeByte := fun _ _ _ => some (List.replicate 4 128) }

/-- Shared witness state matching `wEnvRoll`. -/
def wStRoll : St :=
  { alive := true, ltc_enc_tcformat := 0, ltc_speed := 1, ltc_prev_cycle := -8,
    ltc_enc_pos := 0, ltc_enc_byte := 0, ltc_enc_cnt := 0, restarting := false,
    ltc_enc_buf := fun _ => 0, ltc_buf_off := 0, ltc_buf_len := 0,
    enc_tc := ⟨0, 0, 0, 0, false⟩ }

/-- Block input for the C2 counterexample: identical situation to the C1
one - the transport rolled at speed 1 and stops on this block at the
previous block start position, continuous generation on. -/
def c2Env : Env :=
  { start_sample := 100, end_sample := 100, n_samples := 8, latency_max := 0,
    nominal_sr := 400, engine_sr := 400, fps := 10, dropFrames := false,
    isFrac24 := false, formatId := 0, reinitFails := false, haveMaster := true,
    freewheeling := false, sendEnabled := true, syncMidiClock := false,
    sendContinuously := true, ltcVolume := 90, masterIsExternal := false,
    masterResolution := 0, frameAlignment := 0,
    tcOfSample := fun _ => ⟨0, 0, 0, 0, false⟩,
    sampleOfTc := fun _ => 0,
    incTc := fun t => t, decTc := fun t => t,
    encodeByte := fun _ _ _ => some (List.replicate 4 128) }

/-- Generator state for the C2 counterexample: previous speed 1 and an
aligned encoder position (no drift). -/
def c2St : St :=
  { alive := true, ltc_enc_tcformat := 0, ltc_speed := 1, ltc_prev_cycle := 100,
    ltc_enc_pos := 100, ltc_enc_byte := 0, ltc_enc_cnt := 0, restarting := false,
    ltc_enc_buf := fun _ => 0, ltc_buf_off := 0, ltc_buf_len := 0,
    enc_tc := ⟨0, 0, 0, 0, false⟩ }

/-- Block inputs for the C5 counterexample: first a block whose new
timecode format makes `ltc_encoder_reinit` fail, then a block with a
perfectly representable format. -/
def c5EnvBad : Env :=
  { start_sample := 0, end_sample := 8, n_samples := 8, latency_max := 0,
    nominal_sr := 400, engine_sr := 400, fps := 10, dropFrames := false,
    isFrac24 := false, formatId := 1, reinitFails := true, haveMaster := true,
    freewheeling := false, sendEnabled := true, syncMidiClock := false,
    sendContinuously := true, ltcVolume := 90, masterIsExternal := false,
    masterResolution := 0, frameAlignment := 0,
    tcOfSample := fun _ => ⟨0, 0, 0, 0, false⟩,
    sampleOfTc := fun _ => 0,
    incTc := fun t => t, decTc := fun t => t,
    encodeByte := fun _ _ _ => some (List.replicate 4 128) }

/-- The follow-up block with a corrected, representable format. -/
def c5EnvGood : Env :=
  { c5EnvBad with formatId := 2, reinitFails := false }

/-- Initial state for the C5 counterexample (format id 0, encoder alive). -/
def c5St : St :=
  { alive := true, ltc_enc_tcformat := 0, ltc_speed := 1, ltc_prev_cycle := -8,
    ltc_enc_pos := 0, ltc_enc_byte := 0, ltc_enc_cnt := 0, restarting := false,
    ltc_enc_buf := fun _ => 0, ltc_buf_off := 0, ltc_buf_len := 0,
    enc_tc := ⟨0, 0, 0, 0, false⟩ }

/-- The soft-correction trigger as claim C7 words it: the duration of one
LTC byte (one tenth of a timecode frame) at the current speed exceeds 3
samples. -/
def spec_softCorrCond (env : Env) (sp : ℚ) : Prop :=
  3 < |fptcfOf env / 10 / sp|

/-- Block input for the C7 counterexample: steady reverse playback at
speed -1 with the encoder aligned (no drift, no hard resync). -/
def c7Env : Env :=
  { start_sample := 400, end_sample := 392, n_samples := 8, latency_max := 0,
    nominal_sr := 400, engine_sr := 400, fps := 10, dropFrames := false,
    isFrac24 := false, formatId := 0, reinitFails := false, haveMaster := true,
    freewheeling := false, sendEnabled := true, syncMidiClock := false,
    sendContinuously := true, ltcVolume := 90, masterIsExternal := false,
    masterResolution := 0, frameAlignment := 0,
    tcOfSample := fun _ => ⟨0, 0, 0, 0, false⟩,
    sampleOfTc := fun _ => 0,
    incTc := fun t => t, decTc := fun t => t,
    encodeByte := fun _ _ _ => some (List.replicate 4 128) }

/-- Generator state for the C7 counterexample. -/
def c7St : St :=
  { alive := true, ltc_enc_tcformat := 0, ltc_speed := -1, ltc_prev_cycle := 408,
    ltc_enc_pos := 400, ltc_enc_byte := 0, ltc_enc_cnt := 0, restarting := false,
    ltc_enc_buf := fun _ => 0, ltc_buf_off := 0, ltc_buf_len := 0,
    enc_tc := ⟨0, 0, 0, 0, false⟩ }

/-- Block inputs for the C6 counterexample: a rolling transport at speed 1
whose encoder primitive always reports an error. -/
def c6Env : Env :=
  { start_sample := 100, end_sample := 104, n_samples := 4, latency_max := 0,
    nominal_sr := 400, engine_sr := 400, fps := 10, dropFrames := false,
    isFrac24 := false, formatId := 0, reinitFails := false, haveMaster := true,
    freewheeling := false, sendEnabled := true, syncMidiClock := false,
    sendContinuously := true, ltcVolume := 90, masterIsExternal := false,
    masterResolution := 0, frameAlignment := 0,
    tcOfSample := fun _ => ⟨0, 0, 0, 0, false⟩,
    sampleOfTc := fun _ => 0,
    incTc := fun t => t, decTc := fun t => t,
    encodeByte := fun _ _ _ => none }

/-- Generator state for the C6 counterexample: aligned (no resync), with
two buffered scratch samples of raw value 228 still to drain. -/
def c6St : St :=
  { alive := true, ltc_enc_tcformat := 0, ltc_speed := 1, ltc_prev_cycle := 100,
    ltc_enc_pos := 102, ltc_enc_byte := 0, ltc_enc_cnt := 0, restarting := false,
    ltc_enc_buf := fun _ => 228, ltc_buf_off := 0, ltc_buf_len := 2,
    enc_tc := ⟨0, 0, 0, 0, false⟩ }

def stInv (s : St) : Prop :=
  s.ltc_buf_off ≤ s.ltc_buf_len ∧ s.ltc_enc_byte ≤ 9

instance (s : St) : Decidable (stInv s) :=
  inferInstanceAs (Decidable (And _ _))

/-- Block inputs for the C8 witness: an ordinary forward-rolling block. -/
def w8Env : Env :=
  { start_sample := 100, end_sample := 104, n_samples := 4, latency_max := 0,
    nominal_sr := 400, engine_sr := 400, fps := 10, dropFrames := false,
    isFrac24 := false, formatId := 0, reinitFails := false, haveMaster := true,
    freewheeling := false, sendEnabled := true, syncMidiClock := false,
    sendContinuously := true, ltcVolume := 90, masterIsExternal := false,
    masterResolution := 0, frameAlignment := 0,
    tcOfSample := fun _ => ⟨0, 0, 0, 0, false⟩,
    sampleOfTc := fun _ => 0,
    incTc := fun t => t, decTc := fun t => t,
    encodeByte := fun _ _ _ => some (List.replicate 4 128) }

/-- Generator state for the C8 witness, satisfying the invariant. -/
def w8St : St :=
  { alive := true, ltc_enc_tcformat := 0, ltc_speed := 1, ltc_prev_cycle := 100,
    ltc_enc_pos := 102, ltc_enc_byte := 3, ltc_enc_cnt := 0, restarting := false,
    ltc_enc_buf := fun _ => 200, ltc_buf_off := 1, ltc_buf_len := 2,
    enc_tc := ⟨0, 0, 0, 0, false⟩ }

/-- Generator state for the C10 witness: mid-restart with an empty
scratch buffer. -/
def w10St : St :=
  { alive := true, ltc_enc_tcformat := 0, ltc_speed := 1, ltc_prev_cycle := 100,
    ltc_enc_pos := 102, ltc_enc_byte := 0, ltc_enc_cnt := 0, restarting := true,
    ltc_enc_buf := fun _ => 0, ltc_buf_off := 0, ltc_buf_len := 0,
    enc_tc := ⟨0, 0, 0, 0, false⟩ }

theorem runLoop_hardResync (env : Env) (fuel : ℕ) (f v : ℚ) (st : St)
    (out : List ℚ) (txf : ℕ) (tr : Trace) :
    (runLoop env fuel f v st out txf tr).tr.hardResync = tr.hardResync := by
  simp [runLoop]

theorem runLoop_resetDir (env : Env) (fuel : ℕ) (f v : ℚ) (st : St)
    (out : List ℚ) (txf : ℕ) (tr : Trace) :
    (runLoop env fuel f v st out txf tr).tr.resetDir = tr.resetDir := by
  simp [runLoop]

theorem runLoop_resetSeek (env : Env) (fuel : ℕ) (f v : ℚ) (st : St)
    (out : List ℚ) (txf : ℕ) (tr : Trace) :
    (runLoop env fuel f v st out txf tr).tr.resetSeek = tr.resetSeek := by
  simp [runLoop]

theorem runLoop_resetStart (env : Env) (fuel : ℕ) (f v : ℚ) (st : St)
    (out : List ℚ) (txf : ℕ) (tr : Trace) :
    (runLoop env fuel f v st out txf tr).tr.resetStart = tr.resetStart := by
  simp [runLoop]

theorem runLoop_resetOOB (env : Env) (fuel : ℕ) (f v : ℚ) (st : St)
    (out : List ℚ) (txf : ℕ) (tr : Trace) :
    (runLoop env fuel f v st out txf tr).tr.resetOOB = tr.resetOOB := by
  simp [runLoop]

theorem runLoop_resetResample (env : Env) (fuel : ℕ) (f v : ℚ) (st : St)
    (out : List ℚ) (txf : ℕ) (tr : Trace) :
    (runLoop env fuel f v st out txf tr).tr.resetResample = tr.resetResample := by
  simp [runLoop]

theorem runLoop_resetRace (env : Env) (fuel : ℕ) (f v : ℚ) (st : St)
    (out : List ℚ) (txf : ℕ) (tr : Trace) :
    (runLoop env fuel f v st out txf tr).tr.resetRace = tr.resetRace := by
  simp [runLoop]

theorem runLoop_softCorr (env : Env) (fuel : ℕ) (f v : ℚ) (st : St)
    (out : List ℚ) (txf : ℕ) (tr : Trace) :
    (runLoop env fuel f v st out txf tr).tr.softCorr = tr.softCorr := by
  simp [runLoop]

theorem runLoop_deferred (env : Env) (fuel : ℕ) (f v : ℚ) (st : St)
    (out : List ℚ) (txf : ℕ) (tr : Trace) :
    (runLoop env fuel f v st out txf tr).tr.deferred = tr.deferred := by
  simp [runLoop]

theorem runLoop_resetFormat (env : Env) (fuel : ℕ) (f v : ℚ) (st : St)
    (out : List ℚ) (txf : ℕ) (tr : Trace) :
    (runLoop env fuel f v st out txf tr).tr.resetFormat = tr.resetFormat := by
  simp [runLoop]

theorem runLoop_notifyFormatError (env : Env) (fuel : ℕ) (f v : ℚ) (st : St)
    (out : List ℚ) (txf : ℕ) (tr : Trace) :
    (runLoop env fuel f v st out txf tr).tr.notifyFormatError = tr.notifyFormatError := by
  simp [runLoop]

theorem gates_eval (env : Env) (st : St) (fuel : ℕ)
    (h1 : st.alive = true) (h2 : env.haveMaster = true)
    (h3 : env.freewheeling = false) (h4 : env.sendEnabled = true)
    (h5 : env.syncMidiClock = false)
    (h6 : env.formatId = st.ltc_enc_tcformat) (h7 : env.fps ≤ 30) :
    sendLtcForCycle env st fuel =
      speedStage env fuel (env.ltcVolume / 90) st ({} : Trace) := by
  rw [sendLtcForCycle]
  simp [h1, h2, h3, h4, h5, h6, not_lt.mpr h7]

theorem speedStage_roll (env : Env) (fuel : ℕ) (v : ℚ) (st : St) (tr : Trace)
    (hdir : SIGNUM (rescaleSpeed env (rawSpeed env)) = SIGNUM st.ltc_speed)
    (hz : ¬(env.end_sample = env.start_sample ∨
            |rescaleSpeed env (rawSpeed env)| < 1/10)) :
    speedStage env fuel v st tr =
      stage2 env fuel v st (rescaleSpeed env (rawSpeed env))
        (rescaleSpeed env (rawSpeed env)) (cycleStartSample env (rawSpeed env)) tr := by
  rw [speedStage]
  split_ifs with h1 h2 h3 h4 <;> simp_all

theorem speedStage_stop (env : Env) (fuel : ℕ) (v : ℚ) (st : St) (tr : Trace)
    (hdir : SIGNUM (rescaleSpeed env (rawSpeed env)) = SIGNUM st.ltc_speed)
    (hz : env.end_sample = env.start_sample ∨
          |rescaleSpeed env (rawSpeed env)| < 1/10)
    (hc : env.sendContinuously = true)
    (hseek : env.start_sample = st.ltc_prev_cycle) :
    speedStage env fuel v st tr =
      stage2 env fuel v st (rescaleSpeed env (rawSpeed env)) 0
        (cycleStartSample env (rawSpeed env)) tr := by
  rw [speedStage]
  split_ifs with h1 h2 h3 h4 <;> simp_all

theorem stage2_plain (env : Env) (fuel : ℕ) (v : ℚ) (st : St) (sp1 sp2 : ℚ)
    (css : ℤ) (tr : Trace)
    (hoob : |sp2| ≤ 10)
    (hstart : ¬(st.ltc_speed = 0 ∧ sp2 ≠ 0))
    (hres : ¬(st.ltc_speed ≠ sp1 ∧ sp2 ≠ 0)) :
    stage2 env fuel v st sp1 sp2 css tr =
      alignStage env fuel v
        { st with ltc_prev_cycle := env.start_sample, ltc_speed := sp2 }
        (((st.ltc_buf_len - st.ltc_buf_off : ℕ) : ℚ) * st.ltc_speed) css tr := by
  rw [stage2]
  simp only [if_neg (not_lt.mpr hoob), if_neg hstart, if_neg hres]
  simp

theorem alignStage_resync_iff (env : Env) (fuel : ℕ) (v : ℚ) (st : St)
    (poff : ℚ) (css : ℤ) (tr : Trace) (h : tr.hardResync = false) :
    (alignStage env fuel v st poff css tr).tr.hardResync = true ↔
      (st.ltc_enc_pos < 0 ∨
       (st.ltc_speed ≠ 0 ∧ maxdiffOf env st.ltc_speed <
         |cfmod ((qceil ((st.ltc_enc_pos : ℚ) + st.ltc_enc_cnt - poff) : ℤ) : ℚ)
            ((wrap24hOf env : ℤ) : ℚ) -
          ((Int.tmod css (wrap24hOf env) : ℤ) : ℚ)|)) := by
  rw [alignStage]
  by_cases hcond : st.ltc_enc_pos < 0 ∨
      (st.ltc_speed ≠ 0 ∧ maxdiffOf env st.ltc_speed <
        |cfmod ((qceil ((st.ltc_enc_pos : ℚ) + st.ltc_enc_cnt - poff) : ℤ) : ℚ)
           ((wrap24hOf env : ℤ) : ℚ) -
         ((Int.tmod css (wrap24hOf env) : ℤ) : ℚ)|)
  · rw [if_pos hcond]
    simp only [apply_ite (fun r : Result => r.tr.hardResync)]
    simp [runLoop_hardResync, hcond]
  · rw [if_neg hcond]
    simp only [apply_ite (fun r : Result => r.tr.hardResync)]
    simp [runLoop_hardResync, h, hcond]

/-- Counterexample to claim C1 as stated: in this block the previous
speed is 1 (nonzero) and the wrapped drift (400 samples) far exceeds the
tolerance `2 * ceil(1) = 2` computed from it, so the claim's condition
holds - yet the code performs no hard resync, because line 490 of
`session_ltc.cc` tests `ltc_speed`, which line 421 has already updated to
the new speed 0 of this stopped block. -/
theorem claim_C1_counterexample :
    (sendLtcForCycle c1Env c1St 12).tr.hardResync = false ∧
    spec_hardResyncCond c1Env c1St.ltc_speed c1St.ltc_enc_pos c1St.ltc_enc_cnt
      (c1St.ltc_buf_len - c1St.ltc_buf_off)
      (cycleStartSample c1Env (rawSpeed c1Env)) := by
  refine ⟨by decide, ?_⟩
  unfold spec_hardResyncCond
  decide

/-- Claim C1 (amended): under the block's gates and with no reset or
resampling earlier in the same block, a hard resync fires exactly when the
encoder position holds the sentinel, or when the newly computed speed `sp2`
is nonzero - line 490 tests `ltc_speed` after line 421 already updated it,
not the previous block's speed the claim names - and the drift between the
expected encoder position (whose `poff` term does use the previous speed)
and the aligned start exceeds the tolerance `maxdiff` computed from the new
speed, each side wrapped to 24 hours separately before comparing. -/
theorem claim_C1 (env : Env) (st : St) (fuel : ℕ)
    (sp1 sp2 : ℚ) (css : ℤ)
    (hsp1 : sp1 = rescaleSpeed env (rawSpeed env))
    (hsp2 : sp2 = if env.end_sample = env.start_sample ∨ |sp1| < 1/10 then 0 else sp1)
    (hcss : css = cycleStartSample env (rawSpeed env))
    (h1 : st.alive = true) (h2 : env.haveMaster = true)
    (h3 : env.freewheeling = false) (h4 : env.sendEnabled = true)
    (h5 : env.syncMidiClock = false)
    (h6 : env.formatId = st.ltc_enc_tcformat) (h7 : env.fps ≤ 30)
    (hdir : SIGNUM sp1 = SIGNUM st.ltc_speed)
    (hzero : (env.end_sample = env.start_sample ∨ |sp1| < 1/10) →
       env.sendContinuously = true ∧ env.start_sample = st.ltc_prev_cycle)
    (hoob : |sp2| ≤ 10)
    (hstart : ¬(st.ltc_speed = 0 ∧ sp2 ≠ 0))
    (hres : ¬(st.ltc_speed ≠ sp1 ∧ sp2 ≠ 0)) :
    (sendLtcForCycle env st fuel).tr.hardResync = true ↔
      (st.ltc_enc_pos < 0 ∨
       (sp2 ≠ 0 ∧ maxdiffOf env sp2 <
         |cfmod ((qceil ((st.ltc_enc_pos : ℚ) + st.ltc_enc_cnt -
             ((st.ltc_buf_len - st.ltc_buf_off : ℕ) : ℚ) * st.ltc_speed) : ℤ) : ℚ)
            ((wrap24hOf env : ℤ) : ℚ) -
          ((Int.tmod css (wrap24hOf env) : ℤ) : ℚ)|)) := by
  subst hsp1
  subst hcss
  rw [gates_eval env st fuel h1 h2 h3 h4 h5 h6 h7]
  by_cases hz : env.end_sample = env.start_sample ∨
      |rescaleSpeed env (rawSpeed env)| < 1/10
  · obtain ⟨hc, hseek⟩ := hzero hz
    have hsp2z : sp2 = 0 := by rw [hsp2, if_pos hz]
    subst hsp2z
    rw [speedStage_stop env fuel _ st _ hdir hz hc hseek]
    rw [stage2_plain env fuel _ st _ 0 _ _ (by norm_num) (by simp) (by simp)]
    rw [alignStage_resync_iff _ _ _ _ _ _ _ rfl]
  · have hsp2z : sp2 = rescaleSpeed env (rawSpeed env) := by rw [hsp2, if_neg hz]
    subst hsp2z
    rw [speedStage_roll env fuel _ st _ hdir hz]
    rw [stage2_plain env fuel _ st _ _ _ _ hoob hstart hres]
    rw [alignStage_resync_iff _ _ _ _ _ _ _ rfl]

theorem ltcTxReset_idem (s : St) : ltcTxReset (ltcTxReset s) = ltcTxReset s := by
  simp [ltcTxReset]

theorem speedStage_rollDir (env : Env) (fuel : ℕ) (v : ℚ) (st : St) (tr : Trace)
    (hdir : SIGNUM (rescaleSpeed env (rawSpeed env)) ≠ SIGNUM st.ltc_speed)
    (hz : ¬(env.end_sample = env.start_sample ∨
            |rescaleSpeed env (rawSpeed env)| < 1/10)) :
    speedStage env fuel v st tr =
      stage2 env fuel v (ltcTxReset st) (rescaleSpeed env (rawSpeed env))
        (rescaleSpeed env (rawSpeed env)) (cycleStartSample env (rawSpeed env))
        { tr with resetDir := true } := by
  rw [speedStage]
  split_ifs <;> simp_all

theorem speedStage_stopEqJump (env : Env) (fuel : ℕ) (v : ℚ) (st : St) (tr : Trace)
    (hdir : SIGNUM (rescaleSpeed env (rawSpeed env)) = SIGNUM st.ltc_speed)
    (hz : env.end_sample = env.start_sample ∨
          |rescaleSpeed env (rawSpeed env)| < 1/10)
    (hc : env.sendContinuously = true)
    (hseek : env.start_sample ≠ st.ltc_prev_cycle) :
    speedStage env fuel v st tr =
      stage2 env fuel v (ltcTxReset st) (rescaleSpeed env (rawSpeed env)) 0
        (cycleStartSample env (rawSpeed env)) { tr with resetSeek := true } := by
  rw [speedStage]
  split_ifs <;> simp_all

theorem speedStage_stopDirStay (env : Env) (fuel : ℕ) (v : ℚ) (st : St) (tr : Trace)
    (hdir : SIGNUM (rescaleSpeed env (rawSpeed env)) ≠ SIGNUM st.ltc_speed)
    (hz : env.end_sample = env.start_sample ∨
          |rescaleSpeed env (rawSpeed env)| < 1/10)
    (hc : env.sendContinuously = true)
    (hseek : env.start_sample = st.ltc_prev_cycle) :
    speedStage env fuel v st tr =
      stage2 env fuel v (ltcTxReset st) (rescaleSpeed env (rawSpeed env)) 0
        (cycleStartSample env (rawSpeed env)) { tr with resetDir := true } := by
  rw [speedStage]
  split_ifs <;> simp_all [ltcTxReset]

theorem speedStage_stopDirJump (env : Env) (fuel : ℕ) (v : ℚ) (st : St) (tr : Trace)
    (hdir : SIGNUM (rescaleSpeed env (rawSpeed env)) ≠ SIGNUM st.ltc_speed)
    (hz : env.end_sample = env.start_sample ∨
          |rescaleSpeed env (rawSpeed env)| < 1/10)
    (hc : env.sendContinuously = true)
    (hseek : env.start_sample ≠ st.ltc_prev_cycle) :
    speedStage env fuel v st tr =
      stage2 env fuel v (ltcTxReset st) (rescaleSpeed env (rawSpeed env)) 0
        (cycleStartSample env (rawSpeed env))
        { tr with resetDir := true, resetSeek := true } := by
  rw [speedStage]
  split_ifs <;> simp_all [ltcTxReset_idem, ltcTxReset]

theorem speedStage_stopOffEq (env : Env) (fuel : ℕ) (v : ℚ) (st : St) (tr : Trace)
    (hdir : SIGNUM (rescaleSpeed env (rawSpeed env)) = SIGNUM st.ltc_speed)
    (hz : env.end_sample = env.start_sample ∨
          |rescaleSpeed env (rawSpeed env)| < 1/10)
    (hc : env.sendContinuously = false) :
    speedStage env fuel v st tr =
      { st := { st with ltc_speed := 0 }, out := List.replicate env.n_samples 0,
        tr := tr } := by
  rw [speedStage]
  split_ifs <;> simp_all

theorem speedStage_stopOffDir (env : Env) (fuel : ℕ) (v : ℚ) (st : St) (tr : Trace)
    (hdir : SIGNUM (rescaleSpeed env (rawSpeed env)) ≠ SIGNUM st.ltc_speed)
    (hz : env.end_sample = env.start_sample ∨
          |rescaleSpeed env (rawSpeed env)| < 1/10)
    (hc : env.sendContinuously = false) :
    speedStage env fuel v st tr =
      { st := { ltcTxReset st with ltc_speed := 0 },
        out := List.replicate env.n_samples 0,
        tr := { tr with resetDir := true } } := by
  rw [speedStage]
  split_ifs <;> simp_all [ltcTxReset]

theorem alignStage_resetDir (env : Env) (fuel : ℕ) (v : ℚ) (st : St)
    (poff : ℚ) (css : ℤ) (tr : Trace) :
    (alignStage env fuel v st poff css tr).tr.resetDir = tr.resetDir := by
  rw [alignStage]
  simp only [apply_ite (fun r : Result => r.tr.resetDir)]
  simp [runLoop_resetDir]

theorem alignStage_resetSeek (env : Env) (fuel : ℕ) (v : ℚ) (st : St)
    (poff : ℚ) (css : ℤ) (tr : Trace) :
    (alignStage env fuel v st poff css tr).tr.resetSeek = tr.resetSeek := by
  rw [alignStage]
  simp only [apply_ite (fun r : Result => r.tr.resetSeek)]
  simp [runLoop_resetSeek]

theorem alignStage_resetStart (env : Env) (fuel : ℕ) (v : ℚ) (st : St)
    (poff : ℚ) (css : ℤ) (tr : Trace) :
    (alignStage env fuel v st poff css tr).tr.resetStart = tr.resetStart := by
  rw [alignStage]
  simp only [apply_ite (fun r : Result => r.tr.resetStart)]
  simp [runLoop_resetStart]

theorem alignStage_resetOOB (env : Env) (fuel : ℕ) (v : ℚ) (st : St)
    (poff : ℚ) (css : ℤ) (tr : Trace) :
    (alignStage env fuel v st poff css tr).tr.resetOOB = tr.resetOOB := by
  rw [alignStage]
  simp only [apply_ite (fun r : Result => r.tr.resetOOB)]
  simp [runLoop_resetOOB]

theorem alignStage_resetResample (env : Env) (fuel : ℕ) (v : ℚ) (st : St)
    (poff : ℚ) (css : ℤ) (tr : Trace) :
    (alignStage env fuel v st poff css tr).tr.resetResample = tr.resetResample := by
  rw [alignStage]
  simp only [apply_ite (fun r : Result => r.tr.resetResample)]
  simp [runLoop_resetResample]

theorem resyncStage_bufzero (env : Env) (st : St) (tc_start : SMPTE)
    (tc_sample_start soff : ℤ) (fptcf : ℚ) (out : List ℚ) :
    (resyncStage env st tc_start tc_sample_start soff fptcf out).st.ltc_buf_len = 0 ∧
    (resyncStage env st tc_start tc_sample_start soff fptcf out).st.ltc_buf_off = 0 := by
  rw [resyncStage]
  split_ifs <;>
    simp [ltcTxReset, apply_ite (fun o : ResyncOut => o.st),
      apply_ite (fun s : St => s.ltc_buf_len),
      apply_ite (fun s : St => s.ltc_buf_off)]

theorem runLoop_carried (env : Env) (fuel : ℕ) (f v : ℚ) (st : St)
    (out : List ℚ) (txf : ℕ) (tr : Trace) :
    (runLoop env fuel f v st out txf tr).tr.carried =
      st.ltc_buf_len - st.ltc_buf_off := by
  simp [runLoop]

theorem alignStage_carried (env : Env) (fuel : ℕ) (v : ℚ) (st : St)
    (poff : ℚ) (css : ℤ) (tr : Trace)
    (hb0 : st.ltc_buf_len = 0) (hb1 : st.ltc_buf_off = 0)
    (htr : tr.carried = 0) :
    (alignStage env fuel v st poff css tr).tr.carried = 0 := by
  rw [alignStage]
  simp only [apply_ite (fun r : Result => r.tr.carried)]
  simp [runLoop_carried, htr, hb0, hb1,
    (resyncStage_bufzero env _ _ _ _ _ _).1, (resyncStage_bufzero env _ _ _ _ _ _).2]

theorem crint_zero : crint 0 = 0 := by
  norm_num [crint, qfloor]

theorem resampleStage_empty (st : St) (sp2 poff : ℚ)
    (hb0 : st.ltc_buf_len = 0) (hb1 : st.ltc_buf_off = 0) :
    resampleStage st sp2 poff = (st, poff, false) := by
  rw [resampleStage]
  norm_num [hb0, hb1, crint_zero]

theorem stage2_resetDir (env : Env) (fuel : ℕ) (v : ℚ) (st : St) (sp1 sp2 : ℚ)
    (css : ℤ) (tr : Trace) :
    (stage2 env fuel v st sp1 sp2 css tr).tr.resetDir = tr.resetDir := by
  rw [stage2]
  split_ifs <;> simp_all [alignStage_resetDir, apply_ite (fun t : Trace => t.resetDir)]

theorem stage2_resetSeek (env : Env) (fuel : ℕ) (v : ℚ) (st : St) (sp1 sp2 : ℚ)
    (css : ℤ) (tr : Trace) :
    (stage2 env fuel v st sp1 sp2 css tr).tr.resetSeek = tr.resetSeek := by
  rw [stage2]
  split_ifs <;> simp_all [alignStage_resetSeek, apply_ite (fun t : Trace => t.resetSeek)]

theorem stage2_resetStart_iff (env : Env) (fuel : ℕ) (v : ℚ) (st : St)
    (sp1 sp2 : ℚ) (css : ℤ) (tr : Trace) (htr : tr.resetStart = false) :
    (stage2 env fuel v st sp1 sp2 css tr).tr.resetStart = true ↔
      (¬ 10 < |sp2| ∧ st.ltc_speed = 0 ∧ sp2 ≠ 0) := by
  rw [stage2]
  split_ifs <;> simp_all [alignStage_resetStart, apply_ite (fun t : Trace => t.resetStart)]

theorem stage2_resetOOB_iff (env : Env) (fuel : ℕ) (v : ℚ) (st : St)
    (sp1 sp2 : ℚ) (css : ℤ) (tr : Trace) (htr : tr.resetOOB = false) :
    (stage2 env fuel v st sp1 sp2 css tr).tr.resetOOB = true ↔ 10 < |sp2| := by
  rw [stage2]
  split_ifs <;> simp_all [alignStage_resetOOB, apply_ite (fun t : Trace => t.resetOOB)]

theorem stage2_carried0 (env : Env) (fuel : ℕ) (v : ℚ) (st : St) (sp1 sp2 : ℚ)
    (css : ℤ) (tr : Trace) (hb0 : st.ltc_buf_len = 0) (hb1 : st.ltc_buf_off = 0)
    (htr : tr.carried = 0) :
    (stage2 env fuel v st sp1 sp2 css tr).tr.carried = 0 := by
  rw [stage2]
  split_ifs <;>
    simp_all [resampleStage_empty, alignStage_carried, ltcTxReset, hb0, hb1,
      apply_ite (fun t : Trace => t.carried),
      apply_ite (fun p : St × ℚ × Bool => p.1),
      apply_ite (fun p : St × ℚ × Bool => p.2.2),
      apply_ite (fun s : St => s.ltc_buf_len),
      apply_ite (fun s : St => s.ltc_buf_off)]

theorem speedStage_resetDir_iff (env : Env) (fuel : ℕ) (v : ℚ) (st : St)
    (tr : Trace) (htr : tr.resetDir = false) :
    (speedStage env fuel v st tr).tr.resetDir = true ↔
      SIGNUM (rescaleSpeed env (rawSpeed env)) ≠ SIGNUM st.ltc_speed := by
  rw [speedStage]
  split_ifs <;> simp_all [stage2_resetDir]

theorem speedStage_resetSeek_iff (env : Env) (fuel : ℕ) (v : ℚ) (st : St)
    (tr : Trace) (htr : tr.resetSeek = false) :
    (speedStage env fuel v st tr).tr.resetSeek = true ↔
      ((env.end_sample = env.start_sample ∨
        |rescaleSpeed env (rawSpeed env)| < 1/10) ∧
       env.sendContinuously = true ∧ env.start_sample ≠ st.ltc_prev_cycle) := by
  rw [speedStage]
  split_ifs <;> simp_all [stage2_resetSeek, ltcTxReset]

theorem speedStage_resetStart_iff (env : Env) (fuel : ℕ) (v : ℚ) (st : St)
    (tr : Trace) (htr : tr.resetStart = false)
    (hz : ¬(env.end_sample = env.start_sample ∨
            |rescaleSpeed env (rawSpeed env)| < 1/10)) :
    (speedStage env fuel v st tr).tr.resetStart = true ↔
      (¬ 10 < |rescaleSpeed env (rawSpeed env)| ∧ st.ltc_speed = 0 ∧
       rescaleSpeed env (rawSpeed env) ≠ 0) := by
  rw [speedStage]
  split_ifs <;> simp_all [stage2_resetStart_iff, ltcTxReset]

theorem speedStage_resetOOB_iff (env : Env) (fuel : ℕ) (v : ℚ) (st : St)
    (tr : Trace) (htr : tr.resetOOB = false)
    (hz : ¬(env.end_sample = env.start_sample ∨
            |rescaleSpeed env (rawSpeed env)| < 1/10)) :
    (speedStage env fuel v st tr).tr.resetOOB = true ↔
      10 < |rescaleSpeed env (rawSpeed env)| := by
  rw [speedStage]
  split_ifs <;> simp_all [stage2_resetOOB_iff, ltcTxReset]

/-- Claim C2 (amended): under the block's gates, a sign change of the
rescaled speed against the previous `ltc_speed` resets before any byte is
emitted (no buffered samples carry over), and a 0-to-nonzero transition
resets; but a nonzero-to-0 transition does not by itself reset: with
`sendContinuously` unset the stopped block returns with no reset at all,
and with it set the stopped block resets exactly when its start position
differs from the previous block's start - consecutive idle blocks at the
same position never reset. -/
theorem claim_C2 (env : Env) (st : St) (fuel : ℕ) (sp1 : ℚ)
    (hsp1 : sp1 = rescaleSpeed env (rawSpeed env))
    (h1 : st.alive = true) (h2 : env.haveMaster = true)
    (h3 : env.freewheeling = false) (h4 : env.sendEnabled = true)
    (h5 : env.syncMidiClock = false)
    (h6 : env.formatId = st.ltc_enc_tcformat) (h7 : env.fps ≤ 30) :
    ((sendLtcForCycle env st fuel).tr.resetDir = true ↔
       SIGNUM sp1 ≠ SIGNUM st.ltc_speed) ∧
    (SIGNUM sp1 ≠ SIGNUM st.ltc_speed →
       (sendLtcForCycle env st fuel).tr.carried = 0) ∧
    (st.ltc_speed = 0 →
     ¬(env.end_sample = env.start_sample ∨ |sp1| < 1/10) →
       (¬ 10 < |sp1| → (sendLtcForCycle env st fuel).tr.resetStart = true) ∧
       (10 < |sp1| → (sendLtcForCycle env st fuel).tr.resetOOB = true)) ∧
    ((env.end_sample = env.start_sample ∨ |sp1| < 1/10) →
     env.sendContinuously = true →
       ((sendLtcForCycle env st fuel).tr.resetSeek = true ↔
          env.start_sample ≠ st.ltc_prev_cycle)) ∧
    ((env.end_sample = env.start_sample ∨ |sp1| < 1/10) →
     env.sendContinuously = false →
       (sendLtcForCycle env st fuel).st.ltc_speed = 0 ∧
       (sendLtcForCycle env st fuel).tr.resetSeek = false ∧
       (sendLtcForCycle env st fuel).tr.resetStart = false ∧
       (sendLtcForCycle env st fuel).tr.resetOOB = false ∧
       (sendLtcForCycle env st fuel).tr.resetResample = false ∧
       (sendLtcForCycle env st fuel).tr.hardResync = false ∧
       (sendLtcForCycle env st fuel).tr.encAbort = false) := by
  subst hsp1
  rw [gates_eval env st fuel h1 h2 h3 h4 h5 h6 h7]
  refine ⟨speedStage_resetDir_iff env fuel _ st {} rfl, ?_, ?_, ?_, ?_⟩
  · intro hdir
    by_cases hz : env.end_sample = env.start_sample ∨
        |rescaleSpeed env (rawSpeed env)| < 1/10
    · by_cases hc : env.sendContinuously = true
      · by_cases hj : env.start_sample = st.ltc_prev_cycle
        · rw [speedStage_stopDirStay env fuel _ st {} hdir hz hc hj]
          exact stage2_carried0 _ _ _ _ _ _ _ _ rfl rfl rfl
        · rw [speedStage_stopDirJump env fuel _ st {} hdir hz hc hj]
          exact stage2_carried0 _ _ _ _ _ _ _ _ rfl rfl rfl
      · have hc' : env.sendContinuously = false := by simpa using hc
        rw [speedStage_stopOffDir env fuel _ st {} hdir hz hc']
    · rw [speedStage_rollDir env fuel _ st {} hdir hz]
      exact stage2_carried0 _ _ _ _ _ _ _ _ rfl rfl rfl
  · intro hsp0 hz
    constructor
    · intro hoob
      rw [speedStage_resetStart_iff env fuel _ st {} rfl hz]
      refine ⟨hoob, hsp0, ?_⟩
      intro hzz
      exact hz (Or.inr (by rw [hzz]; norm_num))
    · intro hoob
      rw [speedStage_resetOOB_iff env fuel _ st {} rfl hz]
      exact hoob
  · intro hz hc
    rw [speedStage_resetSeek_iff env fuel _ st {} rfl]
    constructor
    · rintro ⟨-, -, hj⟩
      exact hj
    · intro hj
      exact ⟨hz, hc, hj⟩
  · intro hz hc
    by_cases hdir : SIGNUM (rescaleSpeed env (rawSpeed env)) = SIGNUM st.ltc_speed
    · rw [speedStage_stopOffEq env fuel _ st {} hdir hz hc]
      exact ⟨rfl, rfl, rfl, rfl, rfl, rfl, rfl⟩
    · rw [speedStage_stopOffDir env fuel _ st {} hdir hz hc]
      exact ⟨rfl, rfl, rfl, rfl, rfl, rfl, rfl⟩

theorem claim_C1_witness :
    (sendLtcForCycle wEnvRoll wStRoll 12).tr.hardResync = true ↔
      (wStRoll.ltc_enc_pos < 0 ∨
       ((1 : ℚ) ≠ 0 ∧ maxdiffOf wEnvRoll 1 <
         |cfmod ((qceil ((wStRoll.ltc_enc_pos : ℚ) + wStRoll.ltc_enc_cnt -
             ((wStRoll.ltc_buf_len - wStRoll.ltc_buf_off : ℕ) : ℚ) *
               wStRoll.ltc_speed) : ℤ) : ℚ)
            ((wrap24hOf wEnvRoll : ℤ) : ℚ) -
          ((Int.tmod 0 (wrap24hOf wEnvRoll) : ℤ) : ℚ)|)) :=
  claim_C1 wEnvRoll wStRoll 12 1 1 0 (by decide) (by decide) (by decide)
    (by decide) (by decide) (by decide) (by decide) (by decide) (by decide)
    (by decide) (by decide) (by decide) (by decide) (by decide) (by decide)

theorem claim_C2_witness :
    ((sendLtcForCycle wEnvRoll wStRoll 12).tr.resetDir = true ↔
       SIGNUM 1 ≠ SIGNUM wStRoll.ltc_speed) ∧
    (SIGNUM 1 ≠ SIGNUM wStRoll.ltc_speed →
       (sendLtcForCycle wEnvRoll wStRoll 12).tr.carried = 0) ∧
    (wStRoll.ltc_speed = 0 →
     ¬(wEnvRoll.end_sample = wEnvRoll.start_sample ∨ |(1 : ℚ)| < 1/10) →
       (¬ 10 < |(1 : ℚ)| →
          (sendLtcForCycle wEnvRoll wStRoll 12).tr.resetStart = true) ∧
       (10 < |(1 : ℚ)| →
          (sendLtcForCycle wEnvRoll wStRoll 12).tr.resetOOB = true)) ∧
    ((wEnvRoll.end_sample = wEnvRoll.start_sample ∨ |(1 : ℚ)| < 1/10) →
     wEnvRoll.sendContinuously = true →
       ((sendLtcForCycle wEnvRoll wStRoll 12).tr.resetSeek = true ↔
          wEnvRoll.start_sample ≠ wStRoll.ltc_prev_cycle)) ∧
    ((wEnvRoll.end_sample = wEnvRoll.start_sample ∨ |(1 : ℚ)| < 1/10) →
     wEnvRoll.sendContinuously = false →
       (sendLtcForCycle wEnvRoll wStRoll 12).st.ltc_speed = 0 ∧
       (sendLtcForCycle wEnvRoll wStRoll 12).tr.resetSeek = false ∧
       (sendLtcForCycle wEnvRoll wStRoll 12).tr.resetStart = false ∧
       (sendLtcForCycle wEnvRoll wStRoll 12).tr.resetOOB = false ∧
       (sendLtcForCycle wEnvRoll wStRoll 12).tr.resetResample = false ∧
       (sendLtcForCycle wEnvRoll wStRoll 12).tr.hardResync = false ∧
       (sendLtcForCycle wEnvRoll wStRoll 12).tr.encAbort = false) :=
  claim_C2 wEnvRoll wStRoll 12 1 (by decide) (by decide) (by decide) (by decide)
    (by decide) (by decide) (by decide) (by decide)

theorem claim_C2_counterexample :
    c2St.ltc_speed ≠ 0 ∧
    rescaleSpeed c2Env (rawSpeed c2Env) = 0 ∧
    anyReset (sendLtcForCycle c2Env c2St 12).tr = false := by
  refine ⟨by decide, by decide, by decide⟩

theorem clampNonneg (a : ℤ) : (if a < 0 then 0 else a) = max 0 a := by
  split_ifs with h
  · exact (max_eq_left h.le).symm
  · exact (max_eq_right (not_lt.mp h)).symm

/-- Claim C3: the aligned start position `cycle_start_sample` equals the
block start shifted by `+latency_max` at positive raw speed, by
`-latency_max` at negative raw speed and unshifted at zero speed, reduced
further by the TV-standard frame-alignment offset when the speed is
nonzero, and clamped from below to 0. -/
theorem claim_C3 (env : Env) (sp1 : ℚ)
    (h1 : 0 < env.nominal_sr) (h2 : 0 < env.engine_sr)
    (hsp1 : sp1 = rescaleSpeed env (rawSpeed env)) :
    cycleStartSample env (rawSpeed env) =
      max 0 ((env.start_sample +
        (if 0 < sp1 then env.latency_max
         else if sp1 < 0 then -env.latency_max else 0)) -
        (if sp1 ≠ 0 then env.frameAlignment else 0)) := by
  subst hsp1
  have hr : (0 : ℚ) < (env.nominal_sr : ℚ) / (env.engine_sr : ℚ) := by
    apply div_pos
    · exact_mod_cast h1
    · exact_mod_cast h2
  have hneg : rescaleSpeed env (rawSpeed env) < 0 ↔ rawSpeed env < 0 := by
    rw [rescaleSpeed]
    split_ifs
    · rw [mul_neg_iff]
      constructor
      · rintro (⟨hp, hn⟩ | ⟨hn, hp⟩)
        · linarith
        · exact hn
      · intro h
        exact Or.inr ⟨h, hr⟩
    · exact Iff.rfl
  have hpos : 0 < rescaleSpeed env (rawSpeed env) ↔ 0 < rawSpeed env := by
    rw [rescaleSpeed]
    split_ifs
    · rw [mul_pos_iff]
      constructor
      · rintro (⟨hp, _⟩ | ⟨hn, hn2⟩)
        · exact hp
        · linarith
      · intro h
        exact Or.inl ⟨h, hr⟩
    · exact Iff.rfl
  have hzero : rescaleSpeed env (rawSpeed env) = 0 ↔ rawSpeed env = 0 := by
    constructor
    · intro h
      rcases lt_trichotomy (rawSpeed env) 0 with hh | hh | hh
      · exact absurd (hneg.mpr hh) (by rw [h]; exact lt_irrefl 0)
      · exact hh
      · exact absurd (hpos.mpr hh) (by rw [h]; exact lt_irrefl 0)
    · intro h
      rw [rescaleSpeed, h]
      split_ifs <;> simp
  rw [cycleStartSample]
  simp only [ne_eq, hpos, hneg, hzero]
  split_ifs <;> first | omega | linarith

theorem resyncByte_eq (sp : ℚ) (soff : ℤ) (fptcf : ℚ) :
    resyncByte sp soff fptcf =
      (if sp < 0 then (qfloor ((10 * (soff : ℚ)) / fptcf)).toNat
       else if qceil ((10 * (soff : ℚ)) / fptcf) = 10 then 0
       else (qceil ((10 * (soff : ℚ)) / fptcf)).toNat) := by
  simp only [resyncByte, resyncWraps, resyncByteRaw]
  split_ifs <;> simp_all <;> linarith

set_option maxHeartbeats 1000000 in
/-- Claim C4: on a hard resync whose sub-frame offset satisfies
`0 <= soff < fptcf`, the re-align branch does not bail out, seeds the
encoder timecode from the converted start (hours modulo 24, drop-frame bit
forced to the active format), computes the byte index with floor for
reverse and ceil for forward speed - wrapping index 10 to 0 with a timecode
increment - seeds `ltc_enc_cnt` from the pre-wrap index, and defers with no
sample written exactly when the within-block start offset falls outside the
block. -/
theorem claim_C4 (env : Env) (st : St) (tc_start : SMPTE)
    (tc_sample_start soff : ℤ) (fptcf : ℚ) (out : List ℚ)
    (h0 : 0 ≤ soff) (h1 : (soff : ℚ) < fptcf) :
    (resyncStage env st tc_start tc_sample_start soff fptcf out).race = false ∧
    (resyncStage env st tc_start tc_sample_start soff fptcf out).st.ltc_buf_len = 0 ∧
    (resyncStage env st tc_start tc_sample_start soff fptcf out).st.ltc_buf_off = 0 ∧
    (resyncStage env st tc_start tc_sample_start soff fptcf out).st.enc_tc =
      (if resyncWraps st.ltc_speed soff fptcf
       then env.incTc { hours := tc_start.hours % 24, mins := tc_start.mins,
                        secs := tc_start.secs, frame := tc_start.frame,
                        dfbit := env.dropFrames }
       else { hours := tc_start.hours % 24, mins := tc_start.mins,
              secs := tc_start.secs, frame := tc_start.frame,
              dfbit := env.dropFrames }) ∧
    (resyncStage env st tc_start tc_sample_start soff fptcf out).st.ltc_enc_byte =
      (if st.ltc_speed < 0 then (qfloor ((10 * (soff : ℚ)) / fptcf)).toNat
       else if qceil ((10 * (soff : ℚ)) / fptcf) = 10 then 0
       else (qceil ((10 * (soff : ℚ)) / fptcf)).toNat) ∧
    (¬(0 ≤ resyncCycOff st.ltc_speed soff fptcf ∧
        resyncCycOff st.ltc_speed soff fptcf ≤ (env.n_samples : ℤ)) →
      (resyncStage env st tc_start tc_sample_start soff fptcf out).deferred = true ∧
      (resyncStage env st tc_start tc_sample_start soff fptcf out).out = out ∧
      (resyncStage env st tc_start tc_sample_start soff fptcf out).st.ltc_enc_pos = -9999) ∧
    ((0 ≤ resyncCycOff st.ltc_speed soff fptcf ∧
        resyncCycOff st.ltc_speed soff fptcf ≤ (env.n_samples : ℤ)) →
      (resyncStage env st tc_start tc_sample_start soff fptcf out).deferred = false ∧
      (resyncStage env st tc_start tc_sample_start soff fptcf out).txf =
        (crint ((resyncCycOff st.ltc_speed soff fptcf : ℚ) / |st.ltc_speed|)).toNat ∧
      (resyncStage env st tc_start tc_sample_start soff fptcf out).out =
        writeAt out 0 (List.replicate (resyncCycOff st.ltc_speed soff fptcf).toNat 0) ∧
      (resyncStage env st tc_start tc_sample_start soff fptcf out).st.ltc_enc_pos =
        Int.tmod tc_sample_start (wrap24hOf env)) := by
  have hg : ¬(soff < 0 ∨ fptcf ≤ (soff : ℚ)) := by
    push_neg
    exact ⟨h0, h1⟩
  rw [resyncStage, if_neg hg]
  refine ⟨?_, ?_, ?_, ?_, ?_, ?_, ?_⟩
  · simp [apply_ite (fun o : ResyncOut => o.race)]
  · simp [ltcTxReset, apply_ite (fun o : ResyncOut => o.st),
      apply_ite (fun s : St => s.ltc_buf_len)]
  · simp [ltcTxReset, apply_ite (fun o : ResyncOut => o.st),
      apply_ite (fun s : St => s.ltc_buf_off)]
  · simp [ltcTxReset, apply_ite (fun o : ResyncOut => o.st),
      apply_ite (fun s : St => s.enc_tc)]
  · simp [ltcTxReset, resyncByte_eq, apply_ite (fun o : ResyncOut => o.st),
      apply_ite (fun s : St => s.ltc_enc_byte)]
  · intro hcy
    rw [if_neg (by simpa [ltcTxReset] using hcy)]
    simp [ltcTxReset]
  · intro hcy
    rw [if_pos (by simpa [ltcTxReset] using hcy)]
    simp [ltcTxReset]

theorem claim_C4_witness :
    (resyncStage wEnvRoll wStRoll ⟨1, 2, 3, 4, false⟩ 360 5 40
        (List.replicate 8 0)).race = false ∧
    (resyncStage wEnvRoll wStRoll ⟨1, 2, 3, 4, false⟩ 360 5 40
        (List.replicate 8 0)).st.ltc_buf_len = 0 ∧
    (resyncStage wEnvRoll wStRoll ⟨1, 2, 3, 4, false⟩ 360 5 40
        (List.replicate 8 0)).st.ltc_buf_off = 0 ∧
    (resyncStage wEnvRoll wStRoll ⟨1, 2, 3, 4, false⟩ 360 5 40
        (List.replicate 8 0)).st.enc_tc =
      (if resyncWraps wStRoll.ltc_speed 5 40
       then wEnvRoll.incTc { hours := 1 % 24, mins := 2, secs := 3, frame := 4,
                             dfbit := wEnvRoll.dropFrames }
       else { hours := 1 % 24, mins := 2, secs := 3, frame := 4,
              dfbit := wEnvRoll.dropFrames }) ∧
    (resyncStage wEnvRoll wStRoll ⟨1, 2, 3, 4, false⟩ 360 5 40
        (List.replicate 8 0)).st.ltc_enc_byte =
      (if wStRoll.ltc_speed < 0 then (qfloor ((10 * (5 : ℚ)) / 40)).toNat
       else if qceil ((10 * (5 : ℚ)) / 40) = 10 then 0
       else (qceil ((10 * (5 : ℚ)) / 40)).toNat) ∧
    (¬(0 ≤ resyncCycOff wStRoll.ltc_speed 5 40 ∧
        resyncCycOff wStRoll.ltc_speed 5 40 ≤ (wEnvRoll.n_samples : ℤ)) →
      (resyncStage wEnvRoll wStRoll ⟨1, 2, 3, 4, false⟩ 360 5 40
          (List.replicate 8 0)).deferred = true ∧
      (resyncStage wEnvRoll wStRoll ⟨1, 2, 3, 4, false⟩ 360 5 40
          (List.replicate 8 0)).out = List.replicate 8 0 ∧
      (resyncStage wEnvRoll wStRoll ⟨1, 2, 3, 4, false⟩ 360 5 40
          (List.replicate 8 0)).st.ltc_enc_pos = -9999) ∧
    ((0 ≤ resyncCycOff wStRoll.ltc_speed 5 40 ∧
        resyncCycOff wStRoll.ltc_speed 5 40 ≤ (wEnvRoll.n_samples : ℤ)) →
      (resyncStage wEnvRoll wStRoll ⟨1, 2, 3, 4, false⟩ 360 5 40
          (List.replicate 8 0)).deferred = false ∧
      (resyncStage wEnvRoll wStRoll ⟨1, 2, 3, 4, false⟩ 360 5 40
          (List.replicate 8 0)).txf =
        (crint ((resyncCycOff wStRoll.ltc_speed 5 40 : ℚ) / |wStRoll.ltc_speed|)).toNat ∧
      (resyncStage wEnvRoll wStRoll ⟨1, 2, 3, 4, false⟩ 360 5 40
          (List.replicate 8 0)).out =
        writeAt (List.replicate 8 0) 0
          (List.replicate (resyncCycOff wStRoll.ltc_speed 5 40).toNat 0) ∧
      (resyncStage wEnvRoll wStRoll ⟨1, 2, 3, 4, false⟩ 360 5 40
          (List.replicate 8 0)).st.ltc_enc_pos =
        Int.tmod 360 (wrap24hOf wEnvRoll)) :=
  claim_C4 wEnvRoll wStRoll ⟨1, 2, 3, 4, false⟩ 360 5 40 (List.replicate 8 0)
    (by decide) (by decide)

theorem sendLtc_dead (env : Env) (st : St) (fuel : ℕ) (h : st.alive = false) :
    sendLtcForCycle env st fuel =
      { st := st, out := List.replicate env.n_samples 0, tr := {} } := by
  rw [sendLtcForCycle]
  simp [h]

theorem runBlocks_dead (fuel : ℕ) (envs : List Env) (st : St)
    (h : st.alive = false) :
    (runBlocks fuel envs st).1.alive = false ∧ (runBlocks fuel envs st).2 = 0 := by
  induction envs generalizing st with
  | nil => exact ⟨h, rfl⟩
  | cons e es ih =>
    rw [runBlocks, sendLtc_dead e st fuel h]
    simpa using ih st h

/-- Claim C5 (amended): when the timecode format changes and the encoder
re-initialisation fails, exactly one format error is notified and the
generator is torn down (`ltc_tx_cleanup` frees the encoder) - this block's
output is silence, and contrary to the claim the generator never resumes:
every later block, including ones with a perfectly representable format,
leaves the dead state unchanged and notifies nothing. -/
theorem claim_C5 (env : Env) (st : St) (fuel : ℕ)
    (h1 : st.alive = true) (h2 : env.haveMaster = true)
    (h3 : env.freewheeling = false) (h4 : env.sendEnabled = true)
    (h5 : env.syncMidiClock = false)
    (h6 : env.formatId ≠ st.ltc_enc_tcformat) (h7 : env.reinitFails = true) :
    (sendLtcForCycle env st fuel).tr.notifyFormatError = true ∧
    (sendLtcForCycle env st fuel).st.alive = false ∧
    (sendLtcForCycle env st fuel).out = List.replicate env.n_samples 0 ∧
    (∀ envs st2, st2.alive = false →
       (runBlocks fuel envs st2).1.alive = false ∧
       (runBlocks fuel envs st2).2 = 0) := by
  rw [sendLtcForCycle]
  simp only [h1, h2, h3, h4, h5, h7, if_pos h6]
  refine ⟨by simp, by simp, by simp, fun envs st2 hd => runBlocks_dead fuel envs st2 hd⟩

theorem claim_C5_counterexample :
    c5EnvGood.reinitFails = false ∧
    (runBlocks 12 [c5EnvBad, c5EnvGood] c5St).2 = 1 ∧
    (runBlocks 12 [c5EnvBad, c5EnvGood] c5St).1.alive = false := by
  refine ⟨by decide, by decide, by decide⟩

theorem claim_C5_witness :
    (sendLtcForCycle c5EnvBad c5St 12).tr.notifyFormatError = true ∧
    (sendLtcForCycle c5EnvBad c5St 12).st.alive = false ∧
    (sendLtcForCycle c5EnvBad c5St 12).out = List.replicate c5EnvBad.n_samples 0 ∧
    (∀ envs st2, st2.alive = false →
       (runBlocks 12 envs st2).1.alive = false ∧
       (runBlocks 12 envs st2).2 = 0) :=
  claim_C5 c5EnvBad c5St 12 (by decide) (by decide) (by decide) (by decide)
    (by decide) (by decide) (by decide)

theorem alignStage_softCorr_iff (env : Env) (fuel : ℕ) (v : ℚ) (st : St)
    (poff : ℚ) (css : ℤ) (tr : Trace) (h : tr.softCorr = false) :
    (alignStage env fuel v st poff css tr).tr.softCorr = true ↔
      (¬(st.ltc_enc_pos < 0 ∨
         (st.ltc_speed ≠ 0 ∧ maxdiffOf env st.ltc_speed <
           |cfmod ((qceil ((st.ltc_enc_pos : ℚ) + st.ltc_enc_cnt - poff) : ℤ) : ℚ)
              ((wrap24hOf env : ℤ) : ℚ) -
            ((Int.tmod css (wrap24hOf env) : ℤ) : ℚ)|)) ∧
       st.ltc_speed ≠ 0 ∧ 3 < fptcfOf env / st.ltc_speed / 80) := by
  rw [alignStage]
  by_cases hcond : st.ltc_enc_pos < 0 ∨
      (st.ltc_speed ≠ 0 ∧ maxdiffOf env st.ltc_speed <
        |cfmod ((qceil ((st.ltc_enc_pos : ℚ) + st.ltc_enc_cnt - poff) : ℤ) : ℚ)
           ((wrap24hOf env : ℤ) : ℚ) -
         ((Int.tmod css (wrap24hOf env) : ℤ) : ℚ)|)
  · rw [if_pos hcond]
    simp only [apply_ite (fun r : Result => r.tr.softCorr)]
    simp [runLoop_softCorr, h, hcond]
  · rw [if_neg hcond]
    simp only [apply_ite (fun r : Result => r.tr.softCorr)]
    simp [runLoop_softCorr, h, hcond]

/-- Claim C7 (amended): under the block's gates, with no reset earlier in
the block and no hard resync, the soft speed correction fires exactly when
the new speed is nonzero and `fptcf / speed / 80 > 3` - the code divides by
the signed speed, so the guard is the signed inequality and the correction
never applies at reverse speed, contrary to the claim's every-direction
reading. -/
theorem claim_C7 (env : Env) (st : St) (fuel : ℕ)
    (sp1 sp2 : ℚ) (css : ℤ)
    (hsp1 : sp1 = rescaleSpeed env (rawSpeed env))
    (hsp2 : sp2 = if env.end_sample = env.start_sample ∨ |sp1| < 1/10 then 0 else sp1)
    (hcss : css = cycleStartSample env (rawSpeed env))
    (h1 : st.alive = true) (h2 : env.haveMaster = true)
    (h3 : env.freewheeling = false) (h4 : env.sendEnabled = true)
    (h5 : env.syncMidiClock = false)
    (h6 : env.formatId = st.ltc_enc_tcformat) (h7 : env.fps ≤ 30)
    (hdir : SIGNUM sp1 = SIGNUM st.ltc_speed)
    (hzero : (env.end_sample = env.start_sample ∨ |sp1| < 1/10) →
       env.sendContinuously = true ∧ env.start_sample = st.ltc_prev_cycle)
    (hoob : |sp2| ≤ 10)
    (hstart : ¬(st.ltc_speed = 0 ∧ sp2 ≠ 0))
    (hres : ¬(st.ltc_speed ≠ sp1 ∧ sp2 ≠ 0)) :
    (sendLtcForCycle env st fuel).tr.softCorr = true ↔
      (¬(st.ltc_enc_pos < 0 ∨
         (sp2 ≠ 0 ∧ maxdiffOf env sp2 <
           |cfmod ((qceil ((st.ltc_enc_pos : ℚ) + st.ltc_enc_cnt -
               ((st.ltc_buf_len - st.ltc_buf_off : ℕ) : ℚ) * st.ltc_speed) : ℤ) : ℚ)
              ((wrap24hOf env : ℤ) : ℚ) -
            ((Int.tmod css (wrap24hOf env) : ℤ) : ℚ)|)) ∧
       sp2 ≠ 0 ∧ 3 < fptcfOf env / sp2 / 80) := by
  subst hsp1
  subst hcss
  rw [gates_eval env st fuel h1 h2 h3 h4 h5 h6 h7]
  by_cases hz : env.end_sample = env.start_sample ∨
      |rescaleSpeed env (rawSpeed env)| < 1/10
  · obtain ⟨hc, hseek⟩ := hzero hz
    have hsp2z : sp2 = 0 := by rw [hsp2, if_pos hz]
    subst hsp2z
    rw [speedStage_stop env fuel _ st _ hdir hz hc hseek]
    rw [stage2_plain env fuel _ st _ 0 _ _ (by norm_num) (by simp) (by simp)]
    rw [alignStage_softCorr_iff _ _ _ _ _ _ _ rfl]
  · have hsp2z : sp2 = rescaleSpeed env (rawSpeed env) := by rw [hsp2, if_neg hz]
    subst hsp2z
    rw [speedStage_roll env fuel _ st _ hdir hz]
    rw [stage2_plain env fuel _ st _ _ _ _ hoob hstart hres]
    rw [alignStage_softCorr_iff _ _ _ _ _ _ _ rfl]

theorem claim_C7_counterexample :
    (sendLtcForCycle c7Env c7St 24).tr.hardResync = false ∧
    spec_softCorrCond c7Env (-1) ∧
    (sendLtcForCycle c7Env c7St 24).tr.softCorr = false := by
  refine ⟨by decide, ?_, by decide⟩
  unfold spec_softCorrCond
  decide

theorem writeAt_getD_high (out : List ℚ) (pos : ℕ) (vals : List ℚ) (i : ℕ)
    (h : pos + vals.length ≤ i) :
    (writeAt out pos vals).getD i 0 = out.getD i 0 := by
  rw [writeAt]
  by_cases hp : pos ≤ out.length
  · rw [List.getD_eq_getElem?_getD, List.getD_eq_getElem?_getD, List.append_assoc]
    rw [List.getElem?_append_right (by simp [List.length_take, Nat.min_eq_left hp]; omega)]
    rw [List.getElem?_append_right (by simp [List.length_take, Nat.min_eq_left hp]; omega)]
    rw [List.getElem?_drop]
    congr 2
    simp [List.length_take, Nat.min_eq_left hp]
    omega
  · push_neg at hp
    have h1 : out.take pos = out := List.take_of_length_le (by omega)
    have h2 : out.drop (pos + vals.length) = [] := List.drop_eq_nil_of_le (by omega)
    rw [h1, h2, List.append_nil]
    rw [List.getD_eq_default _ _ (by simp; omega), List.getD_eq_default _ _ (by omega)]

theorem drainVals_length (m : ℕ → ℕ) (vol : ℚ) (off k : ℕ) :
    (drainVals m vol off k).length = k := by
  simp [drainVals]

theorem drain6a_suffix (env : Env) (v : ℚ) (st : St) (out : List ℚ) (txf : ℕ)
    (hout : ∀ i, txf ≤ i → out.getD i 0 = 0) :
    ∀ i, (drain6a env v st out txf).2.2 ≤ i →
      (drain6a env v st out txf).2.1.getD i 0 = 0 := by
  intro i hi
  rw [drain6a] at hi ⊢
  simp only at hi ⊢
  rw [writeAt_getD_high _ _ _ _ (by rw [drainVals_length]; omega)]
  exact hout i (by omega)

theorem loop6Step_inl_abort (env : Env) (fptcf v : ℚ) (st : St) (out : List ℚ)
    (txf ci : ℕ) (r : LoopOut)
    (hstep : loop6Step env fptcf v st out txf ci = Sum.inl r)
    (habort : r.encAbort = true)
    (hout : ∀ i, txf ≤ i → out.getD i 0 = 0) :
    r.st.ltc_enc_pos = -9999 ∧ r.st.ltc_buf_len = 0 ∧ r.st.ltc_buf_off = 0 ∧
    ∀ i, r.abortTxf ≤ i → r.out.getD i 0 = 0 := by
  simp only [loop6Step] at hstep
  split at hstep
  · injection hstep with h
    rw [← h] at habort
    simp at habort
  · split at hstep
    · injection hstep with h
      subst h
      exact ⟨rfl, rfl, rfl, drain6a_suffix env v st out txf hout⟩
    · split at hstep
      · injection hstep with h
        subst h
        exact ⟨rfl, rfl, rfl, drain6a_suffix env v st out txf hout⟩
      · exact absurd hstep (by simp)

theorem loop6Step_inr_suffix (env : Env) (fptcf v : ℚ) (st : St) (out : List ℚ)
    (txf ci : ℕ) (c : St × List ℚ × ℕ)
    (hstep : loop6Step env fptcf v st out txf ci = Sum.inr c)
    (hout : ∀ i, txf ≤ i → out.getD i 0 = 0) :
    ∀ i, c.2.2 ≤ i → c.2.1.getD i 0 = 0 := by
  simp only [loop6Step] at hstep
  split at hstep
  · exact absurd hstep (by simp)
  · split at hstep
    · exact absurd hstep (by simp)
    · split at hstep
      · exact absurd hstep (by simp)
      · injection hstep with h
        subst h
        exact drain6a_suffix env v st out txf hout

theorem loop6_silence (env : Env) (fptcf v : ℚ) :
    ∀ (fuel : ℕ) (st : St) (out : List ℚ) (txf ci : ℕ),
      (∀ i, txf ≤ i → out.getD i 0 = 0) →
      (loop6 env fptcf v fuel st out txf ci).encAbort = true →
      (loop6 env fptcf v fuel st out txf ci).st.ltc_enc_pos = -9999 ∧
      (loop6 env fptcf v fuel st out txf ci).st.ltc_buf_len = 0 ∧
      (loop6 env fptcf v fuel st out txf ci).st.ltc_buf_off = 0 ∧
      ∀ i, (loop6 env fptcf v fuel st out txf ci).abortTxf ≤ i →
        (loop6 env fptcf v fuel st out txf ci).out.getD i 0 = 0 := by
  intro fuel
  induction fuel with
  | zero =>
    intro st out txf ci hout habort
    simp [loop6] at habort
  | succ n ih =>
    intro st out txf ci hout habort
    rw [loop6] at habort ⊢
    rcases hstep : loop6Step env fptcf v st out txf ci with r | c
    · rw [hstep] at habort
      exact loop6Step_inl_abort env fptcf v st out txf ci r hstep habort hout
    · rw [hstep] at habort
      exact ih c.1 c.2.1 c.2.2 (ci + 1)
        (loop6Step_inr_suffix env fptcf v st out txf ci c hstep hout) habort

theorem allZero_getD (l : List ℚ) (h : ∀ x ∈ l, x = 0) (i : ℕ) :
    l.getD i 0 = 0 := by
  rcases lt_or_le i l.length with h1 | h1
  · rw [List.getD_eq_getElem l 0 h1]
    exact h _ (List.getElem_mem h1)
  · exact List.getD_eq_default l 0 h1

theorem writeAt_allZero (out vals : List ℚ) (p : ℕ)
    (h1 : ∀ x ∈ out, x = 0) (h2 : ∀ x ∈ vals, x = 0) :
    ∀ x ∈ writeAt out p vals, x = 0 := by
  intro x hx
  rw [writeAt] at hx
  rcases List.mem_append.1 hx with hx | hx
  · rcases List.mem_append.1 hx with hx | hx
    · exact h1 _ (List.mem_of_mem_take hx)
    · exact h2 _ hx
  · exact h1 _ (List.mem_of_mem_drop hx)

theorem resyncStage_allZero (env : Env) (st : St) (tc : SMPTE)
    (tss soff : ℤ) (fptcf : ℚ) (out : List ℚ)
    (h : ∀ x ∈ out, x = (0:ℚ)) :
    ∀ x ∈ (resyncStage env st tc tss soff fptcf out).out, x = 0 := by
  simp only [resyncStage]
  split_ifs <;>
    first
      | exact h
      | exact writeAt_allZero out _ 0 h (fun x hx => List.eq_of_mem_replicate hx)

theorem runLoop_silence (env : Env) (fuel : ℕ) (f v : ℚ) (st : St)
    (out : List ℚ) (txf : ℕ) (tr : Trace)
    (hout : ∀ i, txf ≤ i → out.getD i 0 = 0)
    (habort : (runLoop env fuel f v st out txf tr).tr.encAbort = true) :
    (runLoop env fuel f v st out txf tr).st.ltc_enc_pos = -9999 ∧
    (runLoop env fuel f v st out txf tr).st.ltc_buf_len = 0 ∧
    (runLoop env fuel f v st out txf tr).st.ltc_buf_off = 0 ∧
    ∀ i, (runLoop env fuel f v st out txf tr).tr.abortTxf ≤ i →
      (runLoop env fuel f v st out txf tr).out.getD i 0 = 0 :=
  loop6_silence env f v fuel st out txf 0 hout habort

theorem alignStage_silence (env : Env) (fuel : ℕ) (v : ℚ) (st : St)
    (poff : ℚ) (css : ℤ) (tr : Trace) (htr : tr.encAbort = false)
    (habort : (alignStage env fuel v st poff css tr).tr.encAbort = true) :
    (alignStage env fuel v st poff css tr).st.ltc_enc_pos = -9999 ∧
    (alignStage env fuel v st poff css tr).st.ltc_buf_len = 0 ∧
    (alignStage env fuel v st poff css tr).st.ltc_buf_off = 0 ∧
    ∀ i, (alignStage env fuel v st poff css tr).tr.abortTxf ≤ i →
      (alignStage env fuel v st poff css tr).out.getD i 0 = 0 := by
  rw [alignStage] at habort ⊢
  by_cases hcond : st.ltc_enc_pos < 0 ∨
      (st.ltc_speed ≠ 0 ∧ maxdiffOf env st.ltc_speed <
        |cfmod ((qceil ((st.ltc_enc_pos : ℚ) + st.ltc_enc_cnt - poff) : ℤ) : ℚ)
           ((wrap24hOf env : ℤ) : ℚ) -
         ((Int.tmod css (wrap24hOf env) : ℤ) : ℚ)|)
  · rw [if_pos hcond] at habort ⊢
    by_cases hrace : (resyncStage env st (env.tcOfSample css)
        (env.sampleOfTc (env.tcOfSample css))
        (if st.ltc_speed = 0 then 0 else css - env.sampleOfTc (env.tcOfSample css))
        (fptcfOf env) (List.replicate env.n_samples 0)).race = true
    · rw [if_pos hrace] at habort
      simp [htr] at habort
    · rw [if_neg hrace] at habort ⊢
      by_cases hdef : (resyncStage env st (env.tcOfSample css)
          (env.sampleOfTc (env.tcOfSample css))
          (if st.ltc_speed = 0 then 0 else css - env.sampleOfTc (env.tcOfSample css))
          (fptcfOf env) (List.replicate env.n_samples 0)).deferred = true
      · rw [if_pos hdef] at habort
        simp [htr] at habort
      · rw [if_neg hdef] at habort ⊢
        exact runLoop_silence _ _ _ _ _ _ _ _
          (fun i _ => allZero_getD _ (resyncStage_allZero _ _ _ _ _ _ _
            (fun x hx => List.eq_of_mem_replicate hx)) i) habort
  · rw [if_neg hcond] at habort ⊢
    by_cases hsc : st.ltc_speed ≠ 0 ∧ 3 < fptcfOf env / st.ltc_speed / 80
    · rw [if_pos hsc] at habort ⊢
      exact runLoop_silence _ _ _ _ _ _ _ _
        (fun i _ => allZero_getD _ (fun x hx => List.eq_of_mem_replicate hx) i) habort
    · rw [if_neg hsc] at habort ⊢
      exact runLoop_silence _ _ _ _ _ _ _ _
        (fun i _ => allZero_getD _ (fun x hx => List.eq_of_mem_replicate hx) i) habort

theorem stage2_silence (env : Env) (fuel : ℕ) (v : ℚ) (st : St)
    (sp1 sp2 : ℚ) (css : ℤ) (tr : Trace) (htr : tr.encAbort = false)
    (habort : (stage2 env fuel v st sp1 sp2 css tr).tr.encAbort = true) :
    (stage2 env fuel v st sp1 sp2 css tr).st.ltc_enc_pos = -9999 ∧
    (stage2 env fuel v st sp1 sp2 css tr).st.ltc_buf_len = 0 ∧
    (stage2 env fuel v st sp1 sp2 css tr).st.ltc_buf_off = 0 ∧
    ∀ i, (stage2 env fuel v st sp1 sp2 css tr).tr.abortTxf ≤ i →
      (stage2 env fuel v st sp1 sp2 css tr).out.getD i 0 = 0 := by
  rw [stage2] at habort ⊢
  by_cases h1 : 10 < |sp2|
  · rw [if_pos h1] at habort
    simp [htr] at habort
  · rw [if_neg h1] at habort ⊢
    refine alignStage_silence _ _ _ _ _ _ _ ?_ habort
    split_ifs <;> simp [htr]

theorem speedStage_silence (env : Env) (fuel : ℕ) (v : ℚ) (st : St)
    (tr : Trace) (htr : tr.encAbort = false)
    (habort : (speedStage env fuel v st tr).tr.encAbort = true) :
    (speedStage env fuel v st tr).st.ltc_enc_pos = -9999 ∧
    (speedStage env fuel v st tr).st.ltc_buf_len = 0 ∧
    (speedStage env fuel v st tr).st.ltc_buf_off = 0 ∧
    ∀ i, (speedStage env fuel v st tr).tr.abortTxf ≤ i →
      (speedStage env fuel v st tr).out.getD i 0 = 0 := by
  rw [speedStage] at habort ⊢
  by_cases h1 : env.end_sample = env.start_sample ∨
      |rescaleSpeed env (rawSpeed env)| < 1/10
  · rw [if_pos h1] at habort ⊢
    by_cases h2 : ¬ env.sendContinuously
    · rw [if_pos h2] at habort
      simp [htr, apply_ite (fun p : St × Trace => p.2),
            apply_ite (fun t : Trace => t.encAbort)] at habort
    · rw [if_neg h2] at habort ⊢
      refine stage2_silence _ _ _ _ _ _ _ _ ?_ habort
      split_ifs <;> simp [htr]
  · rw [if_neg h1] at habort ⊢
    refine stage2_silence _ _ _ _ _ _ _ _ ?_ habort
    split_ifs <;> simp [htr]

/-- Claim C6 (amended): whenever the encoder primitive reports an error or
returns zero samples during a block, the block aborts with `ltc_tx_reset`
applied - the encoder position holds the sentinel, so the next block takes
the hard-resync branch, and the scratch buffer is emptied - and the output
buffer is silent from the abort point on.  The samples already drained
before the abort remain in the output, so the block's output is not
necessarily all silence (see the counterexample). -/
theorem claim_C6 (env : Env) (st : St) (fuel : ℕ)
    (habort : (sendLtcForCycle env st fuel).tr.encAbort = true) :
    (sendLtcForCycle env st fuel).st.ltc_enc_pos = -9999 ∧
    (sendLtcForCycle env st fuel).st.ltc_buf_len = 0 ∧
    (sendLtcForCycle env st fuel).st.ltc_buf_off = 0 ∧
    ∀ i, (sendLtcForCycle env st fuel).tr.abortTxf ≤ i →
      (sendLtcForCycle env st fuel).out.getD i 0 = 0 := by
  rw [sendLtcForCycle] at habort ⊢
  by_cases h1 : ¬ st.alive
  · rw [if_pos h1] at habort
    simp at habort
  · rw [if_neg h1] at habort ⊢
    by_cases h2 : ¬ env.haveMaster
    · rw [if_pos h2] at habort
      simp at habort
    · rw [if_neg h2] at habort ⊢
      by_cases h3 : env.freewheeling ∨ ¬ env.sendEnabled ∨ env.syncMidiClock
      · rw [if_pos h3] at habort
        simp at habort
      · rw [if_neg h3] at habort ⊢
        by_cases h4 : env.formatId ≠ st.ltc_enc_tcformat
        · rw [if_pos h4] at habort ⊢
          by_cases h5 : env.reinitFails
          · rw [if_pos h5] at habort
            simp at habort
          · rw [if_neg h5] at habort ⊢
            by_cases h6 : 30 < env.fps
            · rw [if_pos h6] at habort
              simp at habort
            · rw [if_neg h6] at habort ⊢
              exact speedStage_silence _ _ _ _ _ rfl habort
        · rw [if_neg h4] at habort ⊢
          by_cases h6 : 30 < env.fps
          · rw [if_pos h6] at habort
            simp at habort
          · rw [if_neg h6] at habort ⊢
            exact speedStage_silence _ _ _ _ _ rfl habort

/-- Counterexample to claim C6 as stated: the encoder primitive fails in
this block and the block aborts, yet the output buffer is not all
silence - the two samples drained before the abort carry the value 100. -/
theorem claim_C6_counterexample :
    (sendLtcForCycle c6Env c6St 8).tr.encAbort = true ∧
    (sendLtcForCycle c6Env c6St 8).out.getD 0 0 ≠ 0 := by
  decide

/-- The amended claim C6 at the concrete aborting block. -/
theorem claim_C6_witness :
    (sendLtcForCycle c6Env c6St 8).tr.encAbort = true ∧
    ((sendLtcForCycle c6Env c6St 8).st.ltc_enc_pos = -9999 ∧
     (sendLtcForCycle c6Env c6St 8).st.ltc_buf_len = 0 ∧
     (sendLtcForCycle c6Env c6St 8).st.ltc_buf_off = 0 ∧
     ∀ i, (sendLtcForCycle c6Env c6St 8).tr.abortTxf ≤ i →
       (sendLtcForCycle c6Env c6St 8).out.getD i 0 = 0) :=
  ⟨by decide, claim_C6 c6Env c6St 8 (by decide)⟩

theorem ltcTxReset_inv (s : St) : stInv (ltcTxReset s) :=
  ⟨le_rfl, by simp [ltcTxReset]⟩

theorem resyncByte_le9 (sp : ℚ) (soff : ℤ) (fptcf : ℚ)
    (h0 : 0 ≤ soff) (h1 : (soff : ℚ) < fptcf) :
    resyncByte sp soff fptcf ≤ 9 := by
  have hf : 0 < fptcf :=
    lt_of_le_of_lt (by exact_mod_cast h0 : (0:ℚ) ≤ (soff : ℚ)) h1
  have hq0 : 0 ≤ 10 * (soff : ℚ) / fptcf := by positivity
  have hq10 : 10 * (soff : ℚ) / fptcf < 10 := by
    rw [div_lt_iff hf]
    nlinarith
  rw [resyncByte]
  by_cases hw : resyncWraps sp soff fptcf
  · rw [if_pos hw]
    norm_num
  · rw [if_neg hw]
    rw [Int.toNat_le]
    rw [resyncByteRaw]
    by_cases hsp : sp < 0
    · rw [if_pos hsp, qfloor_eq]
      have : (⌊10 * (soff : ℚ) / fptcf⌋ : ℚ) < 10 :=
        lt_of_le_of_lt (Int.floor_le _) hq10
      exact_mod_cast Int.lt_add_one_iff.mp (by exact_mod_cast this)
    · rw [if_neg hsp, qceil_eq]
      have hle : ⌈10 * (soff : ℚ) / fptcf⌉ ≤ 10 := by
        apply Int.ceil_le.2
        exact le_of_lt hq10
      have hne : resyncByteRaw sp soff fptcf ≠ 10 := by
        intro hc
        exact hw ⟨le_of_not_lt hsp, hc⟩
      rw [resyncByteRaw, if_neg hsp, qceil_eq] at hne
      omega

theorem resyncStage_inv (env : Env) (st : St) (tc : SMPTE)
    (tss soff : ℤ) (fptcf : ℚ) (out : List ℚ) :
    stInv (resyncStage env st tc tss soff fptcf out).st := by
  simp only [resyncStage]
  by_cases hg : soff < 0 ∨ fptcf ≤ (soff : ℚ)
  · rw [if_pos hg]
    exact ⟨le_rfl, by simp [ltcTxReset]⟩
  · rw [if_neg hg]
    push_neg at hg
    split_ifs <;> exact ⟨le_rfl, resyncByte_le9 _ _ _ hg.1 hg.2⟩

theorem insertLoop_len_le (off : ℕ) (avg : ℚ) :
    ∀ (fuel rp len incnt : ℕ) (m : ℕ → ℕ),
      len ≤ (insertLoop off avg fuel rp len incnt m).2 := by
  intro fuel
  induction fuel with
  | zero => intro rp len incnt m; exact le_rfl
  | succ n ih =>
    intro rp len incnt m
    rw [insertLoop]
    split_ifs
    · exact ih _ _ _ _
    · exact ih _ _ _ _
    · exact le_trans (Nat.le_succ len) (ih _ _ _ _)
    · exact le_rfl

theorem removeLoop_off_le (off : ℕ) (avg : ℚ) :
    ∀ (fuel rp len rmcnt : ℕ) (m : ℕ → ℕ),
      off ≤ rp → off ≤ len → off ≤ (removeLoop off avg fuel rp len rmcnt m).2 := by
  intro fuel
  induction fuel with
  | zero => intro rp len rmcnt m _ h2; exact h2
  | succ n ih =>
    intro rp len rmcnt m h1 h2
    rw [removeLoop]
    split_ifs with hc
    · exact ih _ _ _ _ (by omega) h2
    · exact ih _ _ _ _ (by omega) h2
    · exact ih _ _ _ _ (by omega) (by omega)
    · exact h2

theorem resampleStage_inv (st : St) (sp2 poff : ℚ) (h : stInv st) :
    stInv (resampleStage st sp2 poff).1 := by
  simp only [resampleStage]
  split_ifs
  · exact ⟨le_rfl, by simp [ltcTxReset]⟩
  · exact ⟨le_trans h.1 (insertLoop_len_le _ _ _ _ _ _ _), h.2⟩
  · exact ⟨le_rfl, h.2⟩
  · exact ⟨removeLoop_off_le _ _ _ _ _ _ _ le_rfl h.1, h.2⟩
  · exact h

theorem drain6a_inv (env : Env) (v : ℚ) (st : St) (out : List ℚ) (txf : ℕ)
    (h : stInv st) : stInv (drain6a env v st out txf).1 := by
  refine ⟨?_, h.2⟩
  simp only [drain6a]
  have := h.1
  omega

theorem byteDance_off (env : Env) (f : ℚ) (st : St) :
    (byteDance env f st).ltc_buf_off = st.ltc_buf_off := by
  rw [byteDance]
  by_cases h1 : st.ltc_speed < 0
  · rw [if_pos h1]
    by_cases h2 : (st.ltc_enc_byte + 9) % 10 = 9
    · rw [if_pos h2]
      simp [recalcPosition]
    · rw [if_neg h2]
  · rw [if_neg h1]

theorem byteDance_len (env : Env) (f : ℚ) (st : St) :
    (byteDance env f st).ltc_buf_len = st.ltc_buf_len := by
  rw [byteDance]
  by_cases h1 : st.ltc_speed < 0
  · rw [if_pos h1]
    by_cases h2 : (st.ltc_enc_byte + 9) % 10 = 9
    · rw [if_pos h2]
      simp [recalcPosition]
    · rw [if_neg h2]
  · rw [if_neg h1]

theorem byteDance_speed (env : Env) (f : ℚ) (st : St) :
    (byteDance env f st).ltc_speed = st.ltc_speed := by
  rw [byteDance]
  by_cases h1 : st.ltc_speed < 0
  · rw [if_pos h1]
    by_cases h2 : (st.ltc_enc_byte + 9) % 10 = 9
    · rw [if_pos h2]
      simp [recalcPosition]
    · rw [if_neg h2]
  · rw [if_neg h1]

theorem byteDance_byte (env : Env) (f : ℚ) (st : St) :
    (byteDance env f st).ltc_enc_byte =
      if st.ltc_speed < 0 then (st.ltc_enc_byte + 9) % 10
      else st.ltc_enc_byte := by
  rw [byteDance]
  by_cases h1 : st.ltc_speed < 0
  · rw [if_pos h1]
    by_cases h2 : (st.ltc_enc_byte + 9) % 10 = 9
    · rw [if_pos h2]
      simp [recalcPosition, h1]
    · rw [if_neg h2]
      simp [h1]
  · rw [if_neg h1]
    simp [h1]

theorem advance6b_off (env : Env) (f : ℚ) (st : St) (mk : (ℕ → ℕ) × ℕ) :
    (advance6b env f st mk).ltc_buf_off = st.ltc_buf_off := by
  simp only [advance6b, apply_ite (fun s : St => s.ltc_buf_off)]
  split_ifs <;> simp [recalcPosition]

theorem advance6b_len (env : Env) (f : ℚ) (st : St) (mk : (ℕ → ℕ) × ℕ) :
    (advance6b env f st mk).ltc_buf_len = st.ltc_buf_len + mk.2 := by
  simp only [advance6b, apply_ite (fun s : St => s.ltc_buf_len)]
  split_ifs <;> simp [recalcPosition]

theorem advance6b_byte (env : Env) (f : ℚ) (st : St) (mk : (ℕ → ℕ) × ℕ) :
    (advance6b env f st mk).ltc_enc_byte =
      if 0 ≤ st.ltc_speed then (st.ltc_enc_byte + 1) % 10
      else st.ltc_enc_byte := by
  simp only [advance6b, apply_ite (fun s : St => s.ltc_enc_byte)]
  split_ifs <;> simp_all [recalcPosition]

theorem advance6b_inv (env : Env) (f : ℚ) (st : St) (mk : (ℕ → ℕ) × ℕ)
    (hoff : st.ltc_buf_off = 0)
    (hbyte : st.ltc_speed < 0 → st.ltc_enc_byte ≤ 9) :
    stInv (advance6b env f st mk) := by
  constructor
  · rw [advance6b_off, advance6b_len, hoff]
    exact Nat.zero_le _
  · rw [advance6b_byte]
    split_ifs with h
    · omega
    · exact hbyte (lt_of_not_le h)

theorem loop6Step_inl_inv (env : Env) (fptcf v : ℚ) (st : St) (out : List ℚ)
    (txf ci : ℕ) (r : LoopOut)
    (hstep : loop6Step env fptcf v st out txf ci = Sum.inl r)
    (h : stInv st) : stInv r.st := by
  simp only [loop6Step] at hstep
  split at hstep
  · injection hstep with hh
    subst hh
    exact drain6a_inv env v st out txf h
  · split at hstep
    · injection hstep with hh
      subst hh
      exact ⟨le_rfl, by simp [ltcTxReset]⟩
    · split at hstep
      · injection hstep with hh
        subst hh
        exact ⟨le_rfl, by simp [ltcTxReset]⟩
      · exact absurd hstep (by simp)

theorem loop6Step_inr_inv (env : Env) (fptcf v : ℚ) (st : St) (out : List ℚ)
    (txf ci : ℕ) (c : St × List ℚ × ℕ)
    (hstep : loop6Step env fptcf v st out txf ci = Sum.inr c) :
    stInv c.1 := by
  simp only [loop6Step] at hstep
  split at hstep
  · exact absurd hstep (by simp)
  · split at hstep
    · exact absurd hstep (by simp)
    · split at hstep
      · exact absurd hstep (by simp)
      · injection hstep with hh
        rw [← hh]
        refine advance6b_inv _ _ _ _ ?_ ?_
        · rw [byteDance_off]
        · intro hsp
          rw [byteDance_byte]
          rw [byteDance_speed] at hsp
          rw [if_pos hsp]
          omega

theorem loop6_inv (env : Env) (fptcf v : ℚ) :
    ∀ (fuel : ℕ) (st : St) (out : List ℚ) (txf ci : ℕ),
      stInv st → stInv (loop6 env fptcf v fuel st out txf ci).st := by
  intro fuel
  induction fuel with
  | zero => intro st out txf ci h; exact h
  | succ n ih =>
    intro st out txf ci h
    rw [loop6]
    rcases hstep : loop6Step env fptcf v st out txf ci with r | c
    · exact loop6Step_inl_inv env fptcf v st out txf ci r hstep h
    · exact ih c.1 c.2.1 c.2.2 (ci + 1)
        (loop6Step_inr_inv env fptcf v st out txf ci c hstep)

theorem runLoop_inv (env : Env) (fuel : ℕ) (f v : ℚ) (st : St)
    (out : List ℚ) (txf : ℕ) (tr : Trace) (h : stInv st) :
    stInv (runLoop env fuel f v st out txf tr).st :=
  loop6_inv env f v fuel st out txf 0 h

theorem alignStage_inv (env : Env) (fuel : ℕ) (v : ℚ) (st : St)
    (poff : ℚ) (css : ℤ) (tr : Trace) (h : stInv st) :
    stInv (alignStage env fuel v st poff css tr).st := by
  rw [alignStage]
  by_cases hcond : st.ltc_enc_pos < 0 ∨
      (st.ltc_speed ≠ 0 ∧ maxdiffOf env st.ltc_speed <
        |cfmod ((qceil ((st.ltc_enc_pos : ℚ) + st.ltc_enc_cnt - poff) : ℤ) : ℚ)
           ((wrap24hOf env : ℤ) : ℚ) -
         ((Int.tmod css (wrap24hOf env) : ℤ) : ℚ)|)
  · rw [if_pos hcond]
    by_cases hrace : (resyncStage env st (env.tcOfSample css)
        (env.sampleOfTc (env.tcOfSample css))
        (if st.ltc_speed = 0 then 0 else css - env.sampleOfTc (env.tcOfSample css))
        (fptcfOf env) (List.replicate env.n_samples 0)).race = true
    · rw [if_pos hrace]
      exact resyncStage_inv _ _ _ _ _ _ _
    · rw [if_neg hrace]
      by_cases hdef : (resyncStage env st (env.tcOfSample css)
          (env.sampleOfTc (env.tcOfSample css))
          (if st.ltc_speed = 0 then 0 else css - env.sampleOfTc (env.tcOfSample css))
          (fptcfOf env) (List.replicate env.n_samples 0)).deferred = true
      · rw [if_pos hdef]
        exact resyncStage_inv _ _ _ _ _ _ _
      · rw [if_neg hdef]
        exact runLoop_inv _ _ _ _ _ _ _ _ (resyncStage_inv _ _ _ _ _ _ _)
  · rw [if_neg hcond]
    split_ifs
    · exact runLoop_inv _ _ _ _ _ _ _ _ h
    · exact runLoop_inv _ _ _ _ _ _ _ _ h

theorem stInv_select2 (c : Prop) [Decidable c] (a b : St × Trace)
    (ha : stInv a.1) (hb : stInv b.1) : stInv (if c then a else b).1 := by
  split_ifs
  · exact ha
  · exact hb

theorem stInv_select3 (c : Prop) [Decidable c] (a b : St × ℚ × Bool)
    (ha : stInv a.1) (hb : stInv b.1) : stInv (if c then a else b).1 := by
  split_ifs
  · exact ha
  · exact hb

theorem stage2_inv (env : Env) (fuel : ℕ) (v : ℚ) (st : St)
    (sp1 sp2 : ℚ) (css : ℤ) (tr : Trace) (h : stInv st) :
    stInv (stage2 env fuel v st sp1 sp2 css tr).st := by
  rw [stage2]
  by_cases h1 : 10 < |sp2|
  · rw [if_pos h1]
    exact ⟨le_rfl, by simp [ltcTxReset]⟩
  · rw [if_neg h1]
    refine alignStage_inv _ _ _ _ _ _ _ ?_
    refine stInv_select3 _ _ _ ?_ ?_
    · exact resampleStage_inv _ _ _ (stInv_select2 _ _ _ (ltcTxReset_inv st) h)
    · exact stInv_select2 _ _ _ (ltcTxReset_inv st) h

theorem speedStage_inv (env : Env) (fuel : ℕ) (v : ℚ) (st : St)
    (tr : Trace) (h : stInv st) :
    stInv (speedStage env fuel v st tr).st := by
  rw [speedStage]
  by_cases h1 : env.end_sample = env.start_sample ∨
      |rescaleSpeed env (rawSpeed env)| < 1/10
  · rw [if_pos h1]
    by_cases h2 : ¬ env.sendContinuously
    · rw [if_pos h2]
      exact stInv_select2 _ _ _ (ltcTxReset_inv st) h
    · rw [if_neg h2]
      refine stage2_inv _ _ _ _ _ _ _ _ ?_
      exact stInv_select2 _ _ _ (ltcTxReset_inv _)
        (stInv_select2 _ _ _ (ltcTxReset_inv st) h)
  · rw [if_neg h1]
    refine stage2_inv _ _ _ _ _ _ _ _ ?_
    exact stInv_select2 _ _ _ (ltcTxReset_inv st) h

theorem sendLtc_inv (env : Env) (st : St) (fuel : ℕ) (h : stInv st) :
    stInv (sendLtcForCycle env st fuel).st := by
  rw [sendLtcForCycle]
  by_cases h1 : ¬ st.alive
  · rw [if_pos h1]
    exact h
  · rw [if_neg h1]
    by_cases h2 : ¬ env.haveMaster
    · rw [if_pos h2]
      exact h
    · rw [if_neg h2]
      by_cases h3 : env.freewheeling ∨ ¬ env.sendEnabled ∨ env.syncMidiClock
      · rw [if_pos h3]
        exact h
      · rw [if_neg h3]
        by_cases h4 : env.formatId ≠ st.ltc_enc_tcformat
        · rw [if_pos h4]
          by_cases h5 : env.reinitFails
          · rw [if_pos h5]
            exact h
          · rw [if_neg h5]
            by_cases h6 : 30 < env.fps
            · rw [if_pos h6]
              exact ⟨le_rfl, by simp [ltcTxReset]⟩
            · rw [if_neg h6]
              exact speedStage_inv _ _ _ _ _ (ltcTxReset_inv _)
        · rw [if_neg h4]
          by_cases h6 : 30 < env.fps
          · rw [if_pos h6]
            exact h
          · rw [if_neg h6]
            exact speedStage_inv _ _ _ _ _ h

/-- Claim C8: the scratch-buffer read offset never exceeds its length and
the pending BCD byte index stays within 0..9 - after `ltc_tx_reset`, after
the hard-resync (re-align) branch, and across every complete invocation of
`send_ltc_for_cycle` from a state satisfying the invariant. -/
theorem claim_C8 :
    (∀ s : St, stInv (ltcTxReset s)) ∧
    (∀ (env : Env) (st : St) (tc : SMPTE) (tss soff : ℤ) (fptcf : ℚ)
       (out : List ℚ), stInv (resyncStage env st tc tss soff fptcf out).st) ∧
    (∀ (env : Env) (st : St) (fuel : ℕ), stInv st →
       stInv (sendLtcForCycle env st fuel).st) :=
  ⟨ltcTxReset_inv, resyncStage_inv, sendLtc_inv⟩

/-- Claim C8 at a concrete reset, resync and full invocation. -/
theorem claim_C8_witness :
    stInv w8St ∧
    stInv (ltcTxReset w8St) ∧
    stInv (resyncStage w8Env w8St ⟨1, 2, 3, 4, false⟩ 360 5 40
      (List.replicate 4 0)).st ∧
    stInv (sendLtcForCycle w8Env w8St 10).st :=
  ⟨by decide, claim_C8.1 w8St,
   claim_C8.2.1 w8Env w8St ⟨1, 2, 3, 4, false⟩ 360 5 40 (List.replicate 4 0),
   claim_C8.2.2 w8Env w8St 10 (by decide)⟩

/-- Claim C10: while `restarting` is set, each refill of the emptied
scratch buffer appends exactly `trunc(fptcf/10)` filler cells holding the
raw byte value 127, every output sample drained from those cells equals
the constant `(127 - 128) * vol` (with `vol` the scaled output volume
`ltc_output_volume / 90` of line 206), and that constant is strictly
negative - not digital silence - whenever the volume is positive. -/
theorem claim_C10 (env : Env) (f : ℚ) (ci : ℕ) (st : St) (vol : ℚ)
    (h : st.restarting = true) :
    refill6b env f ci st =
      some (memsetMem st.ltc_enc_buf st.ltc_buf_len 127 (qtrunc (f / 10)).toNat,
            (qtrunc (f / 10)).toNat) ∧
    (∀ x ∈ drainVals
        (memsetMem st.ltc_enc_buf st.ltc_buf_len 127 (qtrunc (f / 10)).toNat)
        vol st.ltc_buf_len (qtrunc (f / 10)).toNat,
      x = (127 - 128) * vol) ∧
    (0 < vol → (127 - 128) * vol < 0) := by
  refine ⟨?_, ?_, ?_⟩
  · rw [refill6b, if_pos h]
  · intro x hx
    rw [drainVals] at hx
    simp only [List.mem_map, List.mem_range] at hx
    obtain ⟨i, hi, hxe⟩ := hx
    rw [memsetMem] at hxe
    rw [if_pos (by omega)] at hxe
    rw [← hxe]
    norm_num
  · intro hv
    nlinarith

/-- Claim C10 at a concrete restarting refill (`fptcf = 40`, volume 1). -/
theorem claim_C10_witness :
    w10St.restarting = true ∧
    (refill6b w8Env 40 0 w10St =
      some (memsetMem w10St.ltc_enc_buf w10St.ltc_buf_len 127
              (qtrunc ((40:ℚ) / 10)).toNat,
            (qtrunc ((40:ℚ) / 10)).toNat) ∧
     (∀ x ∈ drainVals
         (memsetMem w10St.ltc_enc_buf w10St.ltc_buf_len 127
           (qtrunc ((40:ℚ) / 10)).toNat)
         1 w10St.ltc_buf_len (qtrunc ((40:ℚ) / 10)).toNat,
       x = (127 - 128) * 1) ∧
     (0 < (1:ℚ) → (127 - 128) * (1:ℚ) < 0)) :=
  ⟨by decide, claim_C10 w8Env 40 0 w10St 1 (by decide)⟩

/-- Claim C3 at the concrete forward-rolling block inputs. -/
theorem claim_C3_witness :
    (0:ℤ) < w8Env.nominal_sr ∧ (0:ℤ) < w8Env.engine_sr ∧
    cycleStartSample w8Env (rawSpeed w8Env) =
      max 0 ((w8Env.start_sample +
        (if 0 < rescaleSpeed w8Env (rawSpeed w8Env) then w8Env.latency_max
         else if rescaleSpeed w8Env (rawSpeed w8Env) < 0 then -w8Env.latency_max
         else 0)) -
        (if rescaleSpeed w8Env (rawSpeed w8Env) ≠ 0 then w8Env.frameAlignment
         else 0)) :=
  ⟨by decide, by decide,
   claim_C3 w8Env (rescaleSpeed w8Env (rawSpeed w8Env)) (by decide) (by decide)
     rfl⟩

/-- The amended claim C7 at the shared forward-rolling block. -/
theorem claim_C7_witness :
    (sendLtcForCycle wEnvRoll wStRoll 12).tr.softCorr = true ↔
      (¬(wStRoll.ltc_enc_pos < 0 ∨
         ((1 : ℚ) ≠ 0 ∧ maxdiffOf wEnvRoll 1 <
           |cfmod ((qceil ((wStRoll.ltc_enc_pos : ℚ) + wStRoll.ltc_enc_cnt -
               ((wStRoll.ltc_buf_len - wStRoll.ltc_buf_off : ℕ) : ℚ) *
                 wStRoll.ltc_speed) : ℤ) : ℚ)
              ((wrap24hOf wEnvRoll : ℤ) : ℚ) -
            ((Int.tmod 0 (wrap24hOf wEnvRoll) : ℤ) : ℚ)|)) ∧
       (1 : ℚ) ≠ 0 ∧ 3 < fptcfOf wEnvRoll / 1 / 80) :=
  claim_C7 wEnvRoll wStRoll 12 1 1 0 (by decide) (by decide) (by decide)
    (by decide) (by decide) (by decide) (by decide) (by decide) (by decide)
    (by decide) (by decide) (by decide) (by decide) (by decide) (by decide)
